import Mathlib

/-!
Demo runner of `demos/common/demo_runner/iot_demo_afr.c`.

A shallow embedding of the two functions of the translation unit that carry
behaviour, `_onNetworkStateChangeCallback` (source lines 118-164) and
`_runDemoTask` (lines 173-278, with `_blockForAvailableNetwork`, lines 166-171),
followed by theorems about them.

Conventions of the embedding.

* `uint32_t` bitmasks are natural numbers and `&` is `&&&`; no arithmetic is
  done on them, so no wrap-around can occur.
* Pointers are `Option`: `none` is `NULL`.
* Everything the file takes from headers and collaborators that are not part
  of the translation unit (the network type constants, the initializer macros,
  the answers of the network manager and of the semaphore allocator) is a field
  of `Env`, so every theorem holds for all their values.
* Calls that leave the translation unit and the stores to
  `pDemoContext->connectedNetwork` made by `_runDemoTask` are recorded, in
  order, in `State.trace`.
* `_runDemoTask` is cut into the blocks between which the callback, which the
  network manager runs on another task, may be delivered: one block per
  top-level statement of the source. `Pc` names the block that runs next.
  The source takes no lock, so there the callback can also run inside a block;
  of the data the task shares with it the callback writes the semaphore and
  `connectedNetwork`, in which it only ever stores `NONE`.
-/

namespace IotDemoAfr

/-- The enumeration `AwsIotNetworkState_t` of the network manager header: the callback
compares its argument with `eNetworkStateEnabled` and `eNetworkStateDisabled`; any
other value is `eNetworkStateUnknown`. -/
inductive AwsIotNetworkState_t where
  | eNetworkStateUnknown
  | eNetworkStateDisabled
  | eNetworkStateEnabled
  deriving DecidableEq, Repr

/-- The values the translation unit receives from outside: header constants,
initializer macros and the answers of its collaborators during one run. -/
structure Env where
  /-- The constant `AWSIOT_NETWORK_TYPE_NONE`. -/
  AWSIOT_NETWORK_TYPE_NONE : Nat
  /-- The constant `AWSIOT_NETWORK_TYPE_WIFI`. -/
  AWSIOT_NETWORK_TYPE_WIFI : Nat
  /-- The constant `AWSIOT_NETWORK_TYPE_BLE`. -/
  AWSIOT_NETWORK_TYPE_BLE : Nat
  /-- The constant `IOT_NETWORK_MANAGER_SUBSCRIPTION_INITIALIZER`. -/
  IOT_NETWORK_MANAGER_SUBSCRIPTION_INITIALIZER : Nat
  /-- The constant `clientcredentialIOT_THING_NAME`. -/
  clientcredentialIOT_THING_NAME : String
  /-- The field `port` of `AWS_IOT_NETWORK_SERVER_INFO_AFR_INITIALIZER`. -/
  port : Nat
  /-- The field `pAlpnProtos` of `AWS_IOT_NETWORK_CREDENTIALS_AFR_INITIALIZER`. -/
  pAlpnProtos : Option Nat
  /-- Whether `IotSemaphore_Create` returns `true`. -/
  semaphoreCreated : Bool
  /-- Whether `AwsIotNetworkManager_SubscribeForStateChange` returns `pdTRUE`. -/
  subscribed : Bool
  /-- The value `AwsIotNetworkManager_SubscribeForStateChange` leaves in `subscription`. -/
  subscriptionHandle : Nat
  /-- The answer of `AwsIotNetworkManager_GetConnectedNetworks` at line 208. -/
  connectedAtStart : Nat
  /-- The answer of `AwsIotNetworkManager_GetConnectedNetworks` at line 170. -/
  connectedAfterWait : Nat
  /-- The function `AwsIotNetworkManager_GetNetworkInterface`. -/
  getNetworkInterface : Nat → Nat
  /-- The status the demo entry point returns at line 253, where the call is an
  expression statement: no variable receives the value. -/
  demoStatus : Int

/-- Modelled from the spec: the semaphore type of `platform/iot_threads.h`, which is
not part of the source tree. The spec describes a single-slot counting signal; the
model keeps the current count and the maximum count given at creation. -/
structure IotSemaphore_t where
  count : Nat
  maxValue : Nat
  deriving DecidableEq, Repr

/-- The external functions declared at lines 90-113, the values the function pointers
of a demo context take in this file. -/
inductive ExternFn where
  | RunMqttDemo
  | RunShadowDemo
  | RunBleMqttEchoDemo
  | BleMqttEchoDemoOnNetworkConnected
  | BleMqttEchoDemoOnNetworkDisconnected
  deriving DecidableEq, Repr

/-- The structure `_demoContext_t` (lines 70-85). A function pointer is the function it
points to, `none` for `NULL`; `networkSemaphore` is `none` while no semaphore exists. -/
structure _demoContext_t where
  networkTypes : Nat
  connectedNetwork : Nat
  demoFn : ExternFn
  onNetworkConnectedFn : Option ExternFn
  onNetworkDisconnectedFn : Option ExternFn
  networkSemaphore : Option IotSemaphore_t
  deriving DecidableEq, Repr

/-- What the translation unit does to the outside, and the stores of `_runDemoTask`
to `connectedNetwork`. -/
inductive Action where
  /-- The call `IotSemaphore_Create( &networkSemaphore, initial, max )`, line 188. -/
  | semaphoreCreate (initialValue maxValue : Nat)
  /-- The call `AwsIotNetworkManager_SubscribeForStateChange( networkTypes, ... )`, line 193. -/
  | subscribeForStateChange (networkTypes : Nat)
  /-- The call `IotLogError(...)`, line 199. -/
  | logError
  /-- The call `AwsIotNetworkManager_GetConnectedNetworks()`, lines 170 and 208. -/
  | getConnectedNetworks
  /-- The return of `IotSemaphore_Wait( &networkSemaphore )`, line 168. -/
  | semaphoreWait
  /-- The store `pDemoContext->connectedNetwork = networkType` in `_runDemoTask`, lines 223 and 237. -/
  | commit (networkType : Nat)
  /-- The call `AwsIotNetworkManager_GetNetworkInterface( networkType )`. -/
  | getNetworkInterface (networkType : Nat)
  /-- The call `pDemoContext->demoFn( ... )`, line 253. -/
  | demoFn (awsIotMqttMode : Bool) (pIdentifier : String) (port : Nat)
      (pAlpnProtos : Option Nat) (pNetworkInterface : Option Nat)
  /-- The call `IotLogInfo(...)`, line 260. -/
  | logInfo
  /-- The call `AwsIotNetworkManager_RemoveSubscription( subscription )`, line 268. -/
  | removeSubscription (subscription : Nat)
  /-- The call `IotSemaphore_Destroy( &networkSemaphore )`, line 274. -/
  | semaphoreDestroy
  /-- The call `vTaskDelete( NULL )`, line 277. -/
  | taskDelete
  /-- The call `IotSemaphore_Post( &networkSemaphore )`, line 131. -/
  | semaphorePost
  /-- The call `pDemoContext->onNetworkConnectedFn( ... )`, line 144. -/
  | onNetworkConnectedFn (awsIotMqttMode : Bool) (pIdentifier : String) (port : Nat)
      (pAlpnProtos : Option Nat) (pNetworkInterface : Option Nat)
  /-- The call `pDemoContext->onNetworkDisconnectedFn( ... )`, line 160. -/
  | onNetworkDisconnectedFn (pNetworkInterface : Option Nat)
  deriving DecidableEq, Repr

/-- The block of `_runDemoTask` that runs next. -/
inductive Pc where
  /-- Line 188. -/
  | create
  /-- Lines 190-202. -/
  | subscribe
  /-- Lines 204-215, up to the call of `_blockForAvailableNetwork`. -/
  | query
  /-- Inside `_blockForAvailableNetwork`, lines 166-171. -/
  | waiting
  /-- Lines 217-248. -/
  | resolve
  /-- Lines 250-263. -/
  | run
  /-- Lines 265-269. -/
  | unsubscribe
  /-- Lines 271-275. -/
  | destroy
  /-- Line 277. -/
  | delete
  /-- After `vTaskDelete( NULL )`: the task no longer exists. -/
  | terminated
  deriving DecidableEq, Repr

/-- The demo context, the local variables of `_runDemoTask` (lines 177-184) and the
trace of actions so far. -/
structure State where
  pc : Pc
  ctx : _demoContext_t
  pAlpnProtos : Option Nat
  pNetworkInterface : Option Nat
  availableNetworkTypes : Nat
  ret : Bool
  awsIotMqttMode : Bool
  subscription : Nat
  trace : List Action
  deriving DecidableEq, Repr

/-- Modelled from the spec: `IotSemaphore_Post` of `platform/iot_threads.h`, absent
from the source tree. The spec: it increments the state to available if not already,
and repeated posts do not accumulate beyond the maximum count. -/
def IotSemaphore_Post (sem : Option IotSemaphore_t) : Option IotSemaphore_t :=
  match sem with
  | none => none
  | some m => if m.count < m.maxValue then some { m with count := m.count + 1 } else some m

/-- Modelled from the spec: `IotSemaphore_Wait` of `platform/iot_threads.h`, absent
from the source tree. The spec: it blocks until a post has happened since the last
successful wait; the result is `none` while the caller stays blocked. -/
def IotSemaphore_Wait (sem : Option IotSemaphore_t) : Option (Option IotSemaphore_t) :=
  match sem with
  | none => none
  | some m => if 0 < m.count then some (some { m with count := m.count - 1 }) else none

/-- The function `_onNetworkStateChangeCallback` (lines 118-164), run as one step. -/
def _onNetworkStateChangeCallback (env : Env) (networkType : Nat)
    (state : AwsIotNetworkState_t) (s : State) : State :=
  if state = AwsIotNetworkState_t.eNetworkStateEnabled then
    if s.ctx.connectedNetwork = env.AWSIOT_NETWORK_TYPE_NONE then
      let s1 : State :=
        { s with ctx := { s.ctx with networkSemaphore := IotSemaphore_Post s.ctx.networkSemaphore },
                 trace := s.trace ++ [Action.semaphorePost] }
      if s1.ctx.onNetworkConnectedFn ≠ none then
        let pNetworkInterface := env.getNetworkInterface networkType
        let awsIotMqttMode := decide (networkType ≠ env.AWSIOT_NETWORK_TYPE_BLE)
        let pAlpnProtos := if env.port ≠ 443 then none else env.pAlpnProtos
        { s1 with trace := s1.trace ++
            [Action.getNetworkInterface networkType,
             Action.onNetworkConnectedFn awsIotMqttMode env.clientcredentialIOT_THING_NAME
               env.port pAlpnProtos (some pNetworkInterface)] }
      else s1
    else s
  else if state = AwsIotNetworkState_t.eNetworkStateDisabled then
    if s.ctx.connectedNetwork = networkType then
      let s1 : State :=
        { s with ctx := { s.ctx with connectedNetwork := env.AWSIOT_NETWORK_TYPE_NONE } }
      if s1.ctx.onNetworkDisconnectedFn ≠ none then
        let pNetworkInterface := env.getNetworkInterface networkType
        { s1 with trace := s1.trace ++
            [Action.getNetworkInterface networkType,
             Action.onNetworkDisconnectedFn (some pNetworkInterface)] }
      else s1
    else s
  else s

/-- The state in which `_runDemoTask` starts on the context `ctx`: the initial values
of its local variables (lines 177-184). -/
def initialState (env : Env) (ctx : _demoContext_t) : State :=
  { pc := Pc.create
    ctx := ctx
    pAlpnProtos := env.pAlpnProtos
    pNetworkInterface := none
    availableNetworkTypes := env.AWSIOT_NETWORK_TYPE_NONE
    ret := true
    awsIotMqttMode := false
    subscription := env.IOT_NETWORK_MANAGER_SUBSCRIPTION_INITIALIZER
    trace := [] }

/-- Line 188 of `_runDemoTask`: create the semaphore with initial count 0 and
maximum count 1. -/
def createBlock (env : Env) (s : State) : State :=
  { s with
    pc := Pc.subscribe
    ret := env.semaphoreCreated
    ctx := if env.semaphoreCreated
           then { s.ctx with networkSemaphore := some { count := 0, maxValue := 1 } }
           else s.ctx
    trace := s.trace ++ [Action.semaphoreCreate 0 1] }

/-- Lines 190-202 of `_runDemoTask`: subscribe to the network manager. -/
def subscribeBlock (env : Env) (s : State) : State :=
  if s.ret = true then
    let s1 : State :=
      { s with
        subscription := env.subscriptionHandle
        trace := s.trace ++ [Action.subscribeForStateChange s.ctx.networkTypes] }
    if env.subscribed ≠ true then
      { s1 with pc := Pc.query, ret := false, trace := s1.trace ++ [Action.logError] }
    else { s1 with pc := Pc.query }
  else { s with pc := Pc.query }

/-- Lines 204-215 of `_runDemoTask`, up to the call of `_blockForAvailableNetwork`. -/
def queryBlock (env : Env) (s : State) : State :=
  if s.ret = true then
    let availableNetworkTypes := env.connectedAtStart &&& s.ctx.networkTypes
    let s1 : State :=
      { s with
        availableNetworkTypes := availableNetworkTypes
        trace := s.trace ++ [Action.getConnectedNetworks] }
    if availableNetworkTypes = env.AWSIOT_NETWORK_TYPE_NONE then
      { s1 with pc := Pc.waiting }
    else { s1 with pc := Pc.resolve }
  else { s with pc := Pc.resolve }

/-- The function `_blockForAvailableNetwork` (lines 166-171) and the assignment of its
result at line 213; `none` while the semaphore cannot be taken. -/
def _blockForAvailableNetwork (env : Env) (s : State) : Option State :=
  match IotSemaphore_Wait s.ctx.networkSemaphore with
  | none => none
  | some sem =>
    some { s with
      pc := Pc.resolve
      ctx := { s.ctx with networkSemaphore := sem }
      availableNetworkTypes := env.connectedAfterWait &&& s.ctx.networkTypes
      trace := s.trace ++ [Action.semaphoreWait, Action.getConnectedNetworks] }

/-- Lines 217-248 of `_runDemoTask`: choose the network in the order Wi-Fi, BLE. -/
def resolveBlock (env : Env) (s : State) : State :=
  if s.ret = true then
    if s.availableNetworkTypes &&& env.AWSIOT_NETWORK_TYPE_WIFI = env.AWSIOT_NETWORK_TYPE_WIFI then
      { s with
        pc := Pc.run
        ctx := { s.ctx with connectedNetwork := env.AWSIOT_NETWORK_TYPE_WIFI }
        pNetworkInterface := some (env.getNetworkInterface env.AWSIOT_NETWORK_TYPE_WIFI)
        pAlpnProtos := if env.port ≠ 443 then none else s.pAlpnProtos
        awsIotMqttMode := true
        trace := s.trace ++
          [Action.commit env.AWSIOT_NETWORK_TYPE_WIFI,
           Action.getNetworkInterface env.AWSIOT_NETWORK_TYPE_WIFI] }
    else if s.availableNetworkTypes &&& env.AWSIOT_NETWORK_TYPE_BLE = env.AWSIOT_NETWORK_TYPE_BLE then
      { s with
        pc := Pc.run
        ctx := { s.ctx with connectedNetwork := env.AWSIOT_NETWORK_TYPE_BLE }
        pNetworkInterface := some (env.getNetworkInterface env.AWSIOT_NETWORK_TYPE_BLE)
        awsIotMqttMode := false
        trace := s.trace ++
          [Action.commit env.AWSIOT_NETWORK_TYPE_BLE,
           Action.getNetworkInterface env.AWSIOT_NETWORK_TYPE_BLE] }
    else { s with pc := Pc.run, ret := false }
  else { s with pc := Pc.run }

/-- Lines 250-263 of `_runDemoTask`: run the demo. -/
def runBlock (env : Env) (s : State) : State :=
  if s.ret = true then
    { s with
      pc := Pc.unsubscribe
      trace := s.trace ++
        [Action.demoFn s.awsIotMqttMode env.clientcredentialIOT_THING_NAME env.port
           s.pAlpnProtos s.pNetworkInterface,
         Action.logInfo] }
  else { s with pc := Pc.unsubscribe }

/-- Lines 265-269 of `_runDemoTask`: remove the subscription. -/
def unsubscribeBlock (env : Env) (s : State) : State :=
  if s.subscription ≠ env.IOT_NETWORK_MANAGER_SUBSCRIPTION_INITIALIZER then
    { s with pc := Pc.destroy, trace := s.trace ++ [Action.removeSubscription s.subscription] }
  else { s with pc := Pc.destroy }

/-- Lines 271-275 of `_runDemoTask`: delete the semaphore. -/
def destroyBlock (s : State) : State :=
  if s.ret = true then
    { s with
      pc := Pc.delete
      ctx := { s.ctx with networkSemaphore := none }
      trace := s.trace ++ [Action.semaphoreDestroy] }
  else { s with pc := Pc.delete }

/-- Line 277 of `_runDemoTask`: `vTaskDelete( NULL )`. -/
def deleteBlock (s : State) : State :=
  { s with pc := Pc.terminated, trace := s.trace ++ [Action.taskDelete] }

/-- One block of `_runDemoTask`; `none` when the task is blocked on the semaphore or
has terminated. -/
def flowStep (env : Env) (s : State) : Option State :=
  match s.pc with
  | Pc.create => some (createBlock env s)
  | Pc.subscribe => some (subscribeBlock env s)
  | Pc.query => some (queryBlock env s)
  | Pc.waiting => _blockForAvailableNetwork env s
  | Pc.resolve => some (resolveBlock env s)
  | Pc.run => some (runBlock env s)
  | Pc.unsubscribe => some (unsubscribeBlock env s)
  | Pc.destroy => some (destroyBlock s)
  | Pc.delete => some (deleteBlock s)
  | Pc.terminated => none

/-- What happens next in the system made of the task and the network manager: a block
of `_runDemoTask`, or the delivery of a state change to the callback. -/
inductive Move where
  | flow
  | event (networkType : Nat) (state : AwsIotNetworkState_t)
  deriving DecidableEq, Repr

/-- One move of the system; a block that cannot run leaves the state as it is. -/
def step (env : Env) (s : State) (m : Move) : State :=
  match m with
  | Move.flow => (flowStep env s).getD s
  | Move.event networkType state => _onNetworkStateChangeCallback env networkType state s

/-- The state after a sequence of moves. -/
def exec (env : Env) (s : State) (ms : List Move) : State :=
  ms.foldl (step env) s

/-- The function `_runDemoTask` (lines 173-278) run alone for at most `fuel` blocks,
from the state `s`. -/
def _runDemoTask (env : Env) (fuel : Nat) (s : State) : State :=
  match fuel with
  | 0 => s
  | fuel + 1 =>
    match flowStep env s with
    | none => s
    | some s1 => _runDemoTask env fuel s1

/-- The mask `mask` has every bit of `networkType`: the test
`( mask & networkType ) == networkType` of lines 221 and 235. -/
def hasType (mask networkType : Nat) : Prop := mask &&& networkType = networkType

instance (mask networkType : Nat) : Decidable (hasType mask networkType) :=
  inferInstanceAs (Decidable (mask &&& networkType = networkType))

/-- The context `mqttDemoContext` of `vStartMQTTDemo` (lines 284-291). -/
def mqttDemoContext (env : Env) : _demoContext_t :=
  { networkTypes := env.AWSIOT_NETWORK_TYPE_WIFI
    connectedNetwork := env.AWSIOT_NETWORK_TYPE_NONE
    demoFn := ExternFn.RunMqttDemo
    onNetworkConnectedFn := none
    onNetworkDisconnectedFn := none
    networkSemaphore := none }

/-- The context `mqttBleEchoDemoContext` of `vStartMQTTBLEEchoDemo` (lines 305-312). -/
def mqttBleEchoDemoContext (env : Env) : _demoContext_t :=
  { networkTypes := env.AWSIOT_NETWORK_TYPE_BLE ||| env.AWSIOT_NETWORK_TYPE_WIFI
    connectedNetwork := env.AWSIOT_NETWORK_TYPE_NONE
    demoFn := ExternFn.RunBleMqttEchoDemo
    onNetworkConnectedFn := some ExternFn.BleMqttEchoDemoOnNetworkConnected
    onNetworkDisconnectedFn := some ExternFn.BleMqttEchoDemoOnNetworkDisconnected
    networkSemaphore := none }

/-- The context `shadowDemoContext` of `vStartShadowDemo` (lines 326-333). -/
def shadowDemoContext (env : Env) : _demoContext_t :=
  { networkTypes := env.AWSIOT_NETWORK_TYPE_WIFI
    connectedNetwork := env.AWSIOT_NETWORK_TYPE_NONE
    demoFn := ExternFn.RunShadowDemo
    onNetworkConnectedFn := none
    onNetworkDisconnectedFn := none
    networkSemaphore := none }

/-- A sample environment for concrete runs: the network types are the bits
`NONE = 0`, `WIFI = 1`, `BLE = 2`, the subscription initializer is the null handle, the
broker port is 8883 and an ALPN list is configured; the semaphore is created, the
subscription succeeds with handle 1, Wi-Fi is connected, and the demo returns 0. -/
def sampleEnv : Env :=
  { AWSIOT_NETWORK_TYPE_NONE := 0
    AWSIOT_NETWORK_TYPE_WIFI := 1
    AWSIOT_NETWORK_TYPE_BLE := 2
    IOT_NETWORK_MANAGER_SUBSCRIPTION_INITIALIZER := 0
    clientcredentialIOT_THING_NAME := "thing"
    port := 8883
    pAlpnProtos := some 7
    semaphoreCreated := true
    subscribed := true
    subscriptionHandle := 1
    connectedAtStart := 1
    connectedAfterWait := 1
    getNetworkInterface := fun networkType => 100 + networkType
    demoStatus := 0 }

/-- The state in which the block of lines 217-248 starts when the queries of the
connected networks gave `connected` and the context accepts `acceptable`. -/
def resolveInput (env : Env) (ctx : _demoContext_t) (connected acceptable : Nat) : State :=
  { initialState env ctx with
    pc := Pc.resolve
    ctx := { ctx with networkTypes := acceptable }
    availableNetworkTypes := connected &&& acceptable }

/-- Whether the action is a store of `_runDemoTask` to `connectedNetwork`. -/
def Action.isCommit : Action → Bool
  | Action.commit _ => true
  | _ => false

/-- Whether the action is a call of the demo entry point. -/
def Action.isDemoFn : Action → Bool
  | Action.demoFn _ _ _ _ _ => true
  | _ => false

/-- Whether the action is a completed wait on the semaphore. -/
def Action.isSemaphoreWait : Action → Bool
  | Action.semaphoreWait => true
  | _ => false

/-- Whether the action is a call of the connect hook. -/
def Action.isOnNetworkConnectedFn : Action → Bool
  | Action.onNetworkConnectedFn _ _ _ _ _ => true
  | _ => false

/-- Whether the action is a call of the disconnect hook. -/
def Action.isOnNetworkDisconnectedFn : Action → Bool
  | Action.onNetworkDisconnectedFn _ => true
  | _ => false

/-- The first query of the connected networks, restricted to the acceptable types
(line 208). -/
def firstAvailable (env : Env) (ctx0 : _demoContext_t) : Nat :=
  env.connectedAtStart &&& ctx0.networkTypes

/-- Where `availableNetworkTypes` comes from once the block of lines 204-215 is over:
the first query when it was not `NONE`, the query made after the wait otherwise. -/
def Queried (env : Env) (ctx0 : _demoContext_t) (s : State) : Prop :=
  (firstAvailable env ctx0 ≠ env.AWSIOT_NETWORK_TYPE_NONE ∧
    s.availableNetworkTypes = firstAvailable env ctx0) ∨
  (firstAvailable env ctx0 = env.AWSIOT_NETWORK_TYPE_NONE ∧
    s.availableNetworkTypes = env.connectedAfterWait &&& ctx0.networkTypes)

/-- What the block of lines 217-248 leaves behind when it chose a network: the branch
taken, the one store to `connectedNetwork`, and the local variables. -/
def Chosen (env : Env) (s : State) : Prop :=
  (hasType s.availableNetworkTypes env.AWSIOT_NETWORK_TYPE_WIFI ∧
    s.trace.filter Action.isCommit = [Action.commit env.AWSIOT_NETWORK_TYPE_WIFI] ∧
    s.awsIotMqttMode = true ∧
    s.pNetworkInterface = some (env.getNetworkInterface env.AWSIOT_NETWORK_TYPE_WIFI) ∧
    s.pAlpnProtos = (if env.port ≠ 443 then none else env.pAlpnProtos)) ∨
  (¬ hasType s.availableNetworkTypes env.AWSIOT_NETWORK_TYPE_WIFI ∧
    hasType s.availableNetworkTypes env.AWSIOT_NETWORK_TYPE_BLE ∧
    s.trace.filter Action.isCommit = [Action.commit env.AWSIOT_NETWORK_TYPE_BLE] ∧
    s.awsIotMqttMode = false ∧
    s.pNetworkInterface = some (env.getNetworkInterface env.AWSIOT_NETWORK_TYPE_BLE) ∧
    s.pAlpnProtos = env.pAlpnProtos)

/-- Nothing was committed and the demo was not called, and the credentials are those
of the initializer: the state of `_runDemoTask` before line 217. -/
def Unresolved (env : Env) (s : State) : Prop :=
  s.trace.filter Action.isCommit = [] ∧
  s.trace.filter Action.isDemoFn = [] ∧
  s.pAlpnProtos = env.pAlpnProtos

/-- What is known of the local variables and of the trace when `_runDemoTask` is about
to run the block `pc`. -/
def FlowAt (env : Env) (ctx0 : _demoContext_t) (s : State) : Pc → Prop
  | Pc.create => s.ret = true ∧ Unresolved env s
  | Pc.subscribe => (s.ret = true ↔ env.semaphoreCreated = true) ∧ Unresolved env s
  | Pc.query =>
      (s.ret = true ↔ env.semaphoreCreated = true ∧ env.subscribed = true) ∧ Unresolved env s
  | Pc.waiting =>
      s.ret = true ∧ env.semaphoreCreated = true ∧ env.subscribed = true ∧
      firstAvailable env ctx0 = env.AWSIOT_NETWORK_TYPE_NONE ∧ Unresolved env s
  | Pc.resolve =>
      (s.ret = true ↔ env.semaphoreCreated = true ∧ env.subscribed = true) ∧
      (s.ret = true → Queried env ctx0 s) ∧
      Unresolved env s
  | Pc.run =>
      (env.semaphoreCreated = true → env.subscribed = true → Queried env ctx0 s) ∧
      (s.ret = true → env.semaphoreCreated = true ∧ env.subscribed = true ∧ Chosen env s) ∧
      (s.ret = false →
        s.trace.filter Action.isCommit = [] ∧
        (env.semaphoreCreated = true → env.subscribed = true →
          ¬ hasType s.availableNetworkTypes env.AWSIOT_NETWORK_TYPE_WIFI ∧
          ¬ hasType s.availableNetworkTypes env.AWSIOT_NETWORK_TYPE_BLE)) ∧
      s.trace.filter Action.isDemoFn = []
  | _ =>
      (env.semaphoreCreated = true → env.subscribed = true → Queried env ctx0 s) ∧
      (s.ret = true →
        env.semaphoreCreated = true ∧ env.subscribed = true ∧ Chosen env s ∧
        s.trace.filter Action.isDemoFn =
          [Action.demoFn s.awsIotMqttMode env.clientcredentialIOT_THING_NAME env.port
            s.pAlpnProtos s.pNetworkInterface]) ∧
      (s.ret = false →
        s.trace.filter Action.isCommit = [] ∧ s.trace.filter Action.isDemoFn = [] ∧
        (env.semaphoreCreated = true → env.subscribed = true →
          ¬ hasType s.availableNetworkTypes env.AWSIOT_NETWORK_TYPE_WIFI ∧
          ¬ hasType s.availableNetworkTypes env.AWSIOT_NETWORK_TYPE_BLE))

/-- Invariant of `_runDemoTask` under every interleaving with the callback: the fields
of the context other than `connectedNetwork` and the semaphore keep the values of the
initial context `ctx0`, no wait happens when the first query finds a network, and the
local variables and the trace are as `FlowAt` says. -/
def FlowInv (env : Env) (ctx0 : _demoContext_t) (s : State) : Prop :=
  s.ctx.networkTypes = ctx0.networkTypes ∧
  s.ctx.demoFn = ctx0.demoFn ∧
  s.ctx.onNetworkConnectedFn = ctx0.onNetworkConnectedFn ∧
  s.ctx.onNetworkDisconnectedFn = ctx0.onNetworkDisconnectedFn ∧
  (firstAvailable env ctx0 ≠ env.AWSIOT_NETWORK_TYPE_NONE →
    s.trace.filter Action.isSemaphoreWait = []) ∧
  FlowAt env ctx0 s s.pc

/-- Whether `_runDemoTask` has not yet reached the block of lines 217-248 or is about
to run it. -/
def Pc.beforeCommit : Pc → Bool
  | Pc.create => true
  | Pc.subscribe => true
  | Pc.query => true
  | Pc.waiting => true
  | Pc.resolve => true
  | _ => false

/-- Invariant of `connectedNetwork` under every interleaving, from an initial context
in which it is `NONE`: it is `NONE` before the block of lines 217-248 has run, and
whenever it is not `NONE` it is the network type that `_runDemoTask` committed, all of
whose bits are acceptable. -/
def CtxInv (env : Env) (ctx0 : _demoContext_t) (s : State) : Prop :=
  (s.pc.beforeCommit = true → s.ctx.connectedNetwork = env.AWSIOT_NETWORK_TYPE_NONE) ∧
  (s.ctx.connectedNetwork = env.AWSIOT_NETWORK_TYPE_NONE ∨
    (s.trace.filter Action.isCommit = [Action.commit s.ctx.connectedNetwork] ∧
      hasType ctx0.networkTypes s.ctx.connectedNetwork))

/-- The sample environment with BLE connected instead of Wi-Fi. -/
def bleEnv : Env := { sampleEnv with connectedAtStart := 2, connectedAfterWait := 2 }

/-- The sample environment when the network manager refuses the subscription and
leaves the handle untouched. -/
def subscribeFailsEnv : Env := { sampleEnv with subscribed := false, subscriptionHandle := 0 }

/-- The sample environment when no network is connected, before and after the wait. -/
def nothingConnectedEnv : Env := { sampleEnv with connectedAtStart := 0, connectedAfterWait := 0 }

/-- Nine moves of the task and none of the callback: `_runDemoTask` running alone,
with a move for each of its blocks and for the wait. -/
def taskAlone : List Move := List.replicate 9 Move.flow

/-- The task reaches the wait, a Wi-Fi enabled event is delivered, and the task runs
on to its end. -/
def wifiEnabledWhileWaiting : List Move :=
  [Move.flow, Move.flow, Move.flow,
   Move.event 1 AwsIotNetworkState_t.eNetworkStateEnabled,
   Move.flow, Move.flow, Move.flow, Move.flow, Move.flow, Move.flow, Move.flow]

/-- The position of a block in the order in which `_runDemoTask` runs its blocks; the
wait, when it happens, stands between the query and the choice of the network. -/
def Pc.rank : Pc → Nat
  | Pc.create => 0
  | Pc.subscribe => 1
  | Pc.query => 2
  | Pc.waiting => 2
  | Pc.resolve => 3
  | Pc.run => 4
  | Pc.unsubscribe => 5
  | Pc.destroy => 6
  | Pc.delete => 7
  | Pc.terminated => 8

/-- The state of the echo demo in the sample environment after the block of lines
217-248 committed Wi-Fi, before the demo entry point is called. -/
def wifiCommittedState : State :=
  exec sampleEnv (initialState sampleEnv (mqttBleEchoDemoContext sampleEnv))
    [Move.flow, Move.flow, Move.flow, Move.flow]

/-- Whether the action is a post of the semaphore. -/
def Action.isSemaphorePost : Action → Bool
  | Action.semaphorePost => true
  | _ => false

/-- The semaphore `sem`, when it exists, has maximum count 1 and a count of at most 1,
and the count together with the `waits` completed so far does not exceed the `posts`
made so far. -/
def SemOk (sem : Option IotSemaphore_t) (waits posts : Nat) : Prop :=
  match sem with
  | some m => m.maxValue = 1 ∧ m.count ≤ 1 ∧ m.count + waits ≤ posts
  | none => waits ≤ posts

/-- Invariant of the semaphore under every interleaving: no wait has completed before
the block of lines 217-248 is reached; from then on exactly one has, if the semaphore
was created, the subscription succeeded and the first query found nothing, and none
otherwise; and once `_runDemoTask` has created the semaphore it satisfies `SemOk`. -/
def SemInv (env : Env) (ctx0 : _demoContext_t) (s : State) : Prop :=
  (s.pc.rank ≤ 2 → s.trace.filter Action.isSemaphoreWait = []) ∧
  (3 ≤ s.pc.rank →
    s.trace.filter Action.isSemaphoreWait =
      if env.semaphoreCreated = true ∧ env.subscribed = true ∧
          firstAvailable env ctx0 = env.AWSIOT_NETWORK_TYPE_NONE
      then [Action.semaphoreWait] else []) ∧
  (s.pc ≠ Pc.create → env.semaphoreCreated = true →
    SemOk s.ctx.networkSemaphore (s.trace.filter Action.isSemaphoreWait).length
      (s.trace.filter Action.isSemaphorePost).length)

/-- The sample environment when nothing is connected at the first query and Wi-Fi is
connected at the query made after the wait. -/
def wifiAfterWaitEnv : Env := { sampleEnv with connectedAtStart := 0, connectedAfterWait := 1 }

/-- The task reaches the wait, an enabled event of type `networkType` is delivered, and
the task completes the wait and chooses the network. -/
def releasedBy (networkType : Nat) : List Move :=
  [Move.flow, Move.flow, Move.flow,
   Move.event networkType AwsIotNetworkState_t.eNetworkStateEnabled,
   Move.flow, Move.flow]

/-- Whether the action is a removal of the subscription. -/
def Action.isRemoveSubscription : Action → Bool
  | Action.removeSubscription _ => true
  | _ => false

/-- Whether the action is a subscription to the network manager. -/
def Action.isSubscribeForStateChange : Action → Bool
  | Action.subscribeForStateChange _ => true
  | _ => false

/-- Modelled from the spec: the contract of `AwsIotNetworkManager_SubscribeForStateChange`,
a function of the network manager, which is not part of the source tree. The spec gives
its result as a subscription handle or an error: the call leaves in `subscription` a
handle other than the initializer exactly when it reports success. -/
def SubscribeContract (env : Env) : Prop :=
  env.subscribed = true ↔
    env.subscriptionHandle ≠ env.IOT_NETWORK_MANAGER_SUBSCRIPTION_INITIALIZER

instance (env : Env) : Decidable (SubscribeContract env) :=
  inferInstanceAs (Decidable (env.subscribed = true ↔
    env.subscriptionHandle ≠ env.IOT_NETWORK_MANAGER_SUBSCRIPTION_INITIALIZER))

/-- The value of the local variable `subscription` once the block of lines 190-202 is
over: what the network manager left in it when the call was made, the initializer
when the semaphore could not be created and the call was skipped. -/
def subscriptionAfter (env : Env) : Nat :=
  if env.semaphoreCreated = true then env.subscriptionHandle
  else env.IOT_NETWORK_MANAGER_SUBSCRIPTION_INITIALIZER

/-- The subscriptions made once the block of lines 190-202 is over. -/
def subscribesAfter (env : Env) (ctx0 : _demoContext_t) : List Action :=
  if env.semaphoreCreated = true then [Action.subscribeForStateChange ctx0.networkTypes] else []

/-- What is known of `subscription` and of the calls to the network manager about the
subscription when `_runDemoTask` is about to run the block `pc`. -/
def SubAt (env : Env) (ctx0 : _demoContext_t) (s : State) : Pc → Prop
  | Pc.create =>
      s.subscription = env.IOT_NETWORK_MANAGER_SUBSCRIPTION_INITIALIZER ∧
      s.trace.filter Action.isSubscribeForStateChange = [] ∧
      s.trace.filter Action.isRemoveSubscription = []
  | Pc.subscribe =>
      s.subscription = env.IOT_NETWORK_MANAGER_SUBSCRIPTION_INITIALIZER ∧
      s.trace.filter Action.isSubscribeForStateChange = [] ∧
      s.trace.filter Action.isRemoveSubscription = []
  | Pc.destroy =>
      s.subscription = subscriptionAfter env ∧
      s.trace.filter Action.isSubscribeForStateChange = subscribesAfter env ctx0 ∧
      s.trace.filter Action.isRemoveSubscription =
        (if subscriptionAfter env ≠ env.IOT_NETWORK_MANAGER_SUBSCRIPTION_INITIALIZER
         then [Action.removeSubscription (subscriptionAfter env)] else [])
  | Pc.delete =>
      s.subscription = subscriptionAfter env ∧
      s.trace.filter Action.isSubscribeForStateChange = subscribesAfter env ctx0 ∧
      s.trace.filter Action.isRemoveSubscription =
        (if subscriptionAfter env ≠ env.IOT_NETWORK_MANAGER_SUBSCRIPTION_INITIALIZER
         then [Action.removeSubscription (subscriptionAfter env)] else [])
  | Pc.terminated =>
      s.subscription = subscriptionAfter env ∧
      s.trace.filter Action.isSubscribeForStateChange = subscribesAfter env ctx0 ∧
      s.trace.filter Action.isRemoveSubscription =
        (if subscriptionAfter env ≠ env.IOT_NETWORK_MANAGER_SUBSCRIPTION_INITIALIZER
         then [Action.removeSubscription (subscriptionAfter env)] else [])
  | _ =>
      s.subscription = subscriptionAfter env ∧
      s.trace.filter Action.isSubscribeForStateChange = subscribesAfter env ctx0 ∧
      s.trace.filter Action.isRemoveSubscription = []

/-- Invariant of the subscription under every interleaving with the callback. -/
def SubInv (env : Env) (ctx0 : _demoContext_t) (s : State) : Prop :=
  SubAt env ctx0 s s.pc

/-- The state of the echo demo in the sample environment when, after the block of lines
217-248 committed Wi-Fi and before the demo entry point is called, a Wi-Fi disabled
event was delivered. -/
def wifiLostBeforeDemo : State :=
  exec sampleEnv (initialState sampleEnv (mqttBleEchoDemoContext sampleEnv))
    [Move.flow, Move.flow, Move.flow, Move.flow,
     Move.event 1 AwsIotNetworkState_t.eNetworkStateDisabled]

/-- The sample environment when the network manager reports that the subscription
failed and yet leaves the handle 5 in `subscription`. -/
def handleLeftOnFailureEnv : Env :=
  { sampleEnv with subscribed := false, subscriptionHandle := 5 }

/-- The sample environment when the network manager reports that the subscription
succeeded and leaves the initializer in `subscription`. -/
def noHandleOnSuccessEnv : Env := { sampleEnv with subscriptionHandle := 0 }

/-- The removals of the subscription that a run of `_runDemoTask` has made once the
block of lines 265-269 is over: one, of the value of `subscription`, when that value is
not the initializer, none otherwise. -/
def removalsAfter (env : Env) : List Action :=
  if subscriptionAfter env ≠ env.IOT_NETWORK_MANAGER_SUBSCRIPTION_INITIALIZER
  then [Action.removeSubscription (subscriptionAfter env)] else []

end IotDemoAfr

namespace IotDemoAfr

/-! Invariants of the task interleaved with the callback. -/

theorem hasType_of_and (c n w : Nat) (h : hasType (c &&& n) w) : hasType n w := by
  unfold hasType at *
  apply Nat.eq_of_testBit_eq
  intro i
  have hi := congrArg (fun x => Nat.testBit x i) h
  simp only [Nat.testBit_and] at hi ⊢
  revert hi
  cases c.testBit i <;> cases n.testBit i <;> cases w.testBit i <;> simp

theorem flowInv_initialState (env : Env) (ctx0 : _demoContext_t) :
    FlowInv env ctx0 (initialState env ctx0) := by
  simp [FlowInv, FlowAt, Unresolved, initialState]

theorem flowAt_congr (env : Env) (ctx0 : _demoContext_t) (s s' : State) (pc : Pc)
    (h1 : s'.ret = s.ret) (h2 : s'.availableNetworkTypes = s.availableNetworkTypes)
    (h3 : s'.awsIotMqttMode = s.awsIotMqttMode) (h4 : s'.pNetworkInterface = s.pNetworkInterface)
    (h5 : s'.pAlpnProtos = s.pAlpnProtos)
    (h6 : s'.trace.filter Action.isCommit = s.trace.filter Action.isCommit)
    (h7 : s'.trace.filter Action.isDemoFn = s.trace.filter Action.isDemoFn)
    (h : FlowAt env ctx0 s pc) : FlowAt env ctx0 s' pc := by
  cases pc <;>
    simp only [FlowAt, Unresolved, Queried, Chosen, h1, h2, h3, h4, h5, h6, h7] at h ⊢ <;>
    exact h

/-- The callback leaves the program counter and the local variables of `_runDemoTask`
alone, writes no field of the context besides `connectedNetwork` and the semaphore,
and adds to the trace none of the actions of `_runDemoTask` that the invariants follow. -/
theorem callback_frame (env : Env) (s : State) (networkType : Nat) (state : AwsIotNetworkState_t) :
    (_onNetworkStateChangeCallback env networkType state s).pc = s.pc ∧
    (_onNetworkStateChangeCallback env networkType state s).ret = s.ret ∧
    (_onNetworkStateChangeCallback env networkType state s).availableNetworkTypes
      = s.availableNetworkTypes ∧
    (_onNetworkStateChangeCallback env networkType state s).awsIotMqttMode = s.awsIotMqttMode ∧
    (_onNetworkStateChangeCallback env networkType state s).pNetworkInterface
      = s.pNetworkInterface ∧
    (_onNetworkStateChangeCallback env networkType state s).pAlpnProtos = s.pAlpnProtos ∧
    (_onNetworkStateChangeCallback env networkType state s).subscription = s.subscription ∧
    (_onNetworkStateChangeCallback env networkType state s).ctx.networkTypes
      = s.ctx.networkTypes ∧
    (_onNetworkStateChangeCallback env networkType state s).ctx.demoFn = s.ctx.demoFn ∧
    (_onNetworkStateChangeCallback env networkType state s).ctx.onNetworkConnectedFn
      = s.ctx.onNetworkConnectedFn ∧
    (_onNetworkStateChangeCallback env networkType state s).ctx.onNetworkDisconnectedFn
      = s.ctx.onNetworkDisconnectedFn ∧
    (_onNetworkStateChangeCallback env networkType state s).trace.filter Action.isCommit
      = s.trace.filter Action.isCommit ∧
    (_onNetworkStateChangeCallback env networkType state s).trace.filter Action.isDemoFn
      = s.trace.filter Action.isDemoFn ∧
    (_onNetworkStateChangeCallback env networkType state s).trace.filter Action.isSemaphoreWait
      = s.trace.filter Action.isSemaphoreWait := by
  unfold _onNetworkStateChangeCallback
  dsimp only
  split_ifs <;>
    simp [List.filter_append, Action.isCommit, Action.isDemoFn, Action.isSemaphoreWait]

theorem flowInv_callback (env : Env) (ctx0 : _demoContext_t) (s : State)
    (networkType : Nat) (state : AwsIotNetworkState_t) (h : FlowInv env ctx0 s) :
    FlowInv env ctx0 (_onNetworkStateChangeCallback env networkType state s) := by
  obtain ⟨f1, f2, f3, f4, f5, f6, _, f8, f9, f10, f11, f12, f13, f14⟩ :=
    callback_frame env s networkType state
  obtain ⟨g1, g2, g3, g4, g5, g6⟩ := h
  refine ⟨f8.trans g1, f9.trans g2, f10.trans g3, f11.trans g4, ?_, ?_⟩
  · rw [f14]; exact g5
  · rw [f1]; exact flowAt_congr env ctx0 s _ s.pc f2 f3 f4 f5 f6 f12 f13 g6

theorem flowInv_createBlock (env : Env) (ctx0 : _demoContext_t) (s : State)
    (h : FlowInv env ctx0 s) (hpc : s.pc = Pc.create) : FlowInv env ctx0 (createBlock env s) := by
  obtain ⟨pc, ctx, alpn, iface, av, ret, mode, sub, tr⟩ := s
  simp only at hpc
  subst hpc
  simp only [FlowInv, FlowAt, Unresolved] at h
  unfold createBlock
  by_cases hc : env.semaphoreCreated = true <;>
    simp_all [FlowInv, FlowAt, Unresolved, List.filter_append, Action.isCommit, Action.isDemoFn,
      Action.isSemaphoreWait]

theorem flowInv_subscribeBlock (env : Env) (ctx0 : _demoContext_t) (s : State)
    (h : FlowInv env ctx0 s) (hpc : s.pc = Pc.subscribe) :
    FlowInv env ctx0 (subscribeBlock env s) := by
  obtain ⟨pc, ctx, alpn, iface, av, ret, mode, sub, tr⟩ := s
  simp only at hpc
  subst hpc
  simp only [FlowInv, FlowAt, Unresolved] at h
  unfold subscribeBlock
  dsimp only
  split_ifs <;>
    simp_all [FlowInv, FlowAt, Unresolved, List.filter_append, Action.isCommit, Action.isDemoFn,
      Action.isSemaphoreWait]

theorem flowInv_queryBlock (env : Env) (ctx0 : _demoContext_t) (s : State)
    (h : FlowInv env ctx0 s) (hpc : s.pc = Pc.query) : FlowInv env ctx0 (queryBlock env s) := by
  obtain ⟨pc, ctx, alpn, iface, av, ret, mode, sub, tr⟩ := s
  simp only at hpc
  subst hpc
  simp only [FlowInv, FlowAt, Unresolved] at h
  unfold queryBlock
  dsimp only
  split_ifs <;>
    simp_all [FlowInv, FlowAt, Unresolved, Queried, firstAvailable, List.filter_append,
      Action.isCommit, Action.isDemoFn, Action.isSemaphoreWait]

theorem flowInv_blockForAvailableNetwork (env : Env) (ctx0 : _demoContext_t) (s s' : State)
    (h : FlowInv env ctx0 s) (hpc : s.pc = Pc.waiting)
    (hs : _blockForAvailableNetwork env s = some s') : FlowInv env ctx0 s' := by
  obtain ⟨pc, ctx, alpn, iface, av, ret, mode, sub, tr⟩ := s
  simp only at hpc
  subst hpc
  simp only [FlowInv, FlowAt, Unresolved] at h
  unfold _blockForAvailableNetwork at hs
  dsimp only at hs
  split at hs
  · exact absurd hs (by simp)
  · simp only [Option.some.injEq] at hs
    subst hs
    simp_all [FlowInv, FlowAt, Unresolved, Queried, firstAvailable, List.filter_append,
      Action.isCommit, Action.isDemoFn, Action.isSemaphoreWait]

theorem flowInv_resolveBlock (env : Env) (ctx0 : _demoContext_t) (s : State)
    (h : FlowInv env ctx0 s) (hpc : s.pc = Pc.resolve) : FlowInv env ctx0 (resolveBlock env s) := by
  obtain ⟨pc, ctx, alpn, iface, av, ret, mode, sub, tr⟩ := s
  simp only at hpc
  subst hpc
  simp only [FlowInv, FlowAt, Unresolved] at h
  unfold resolveBlock
  dsimp only
  split_ifs <;>
    simp_all [FlowInv, FlowAt, Unresolved, Queried, Chosen, hasType, firstAvailable,
      List.filter_append, Action.isCommit, Action.isDemoFn, Action.isSemaphoreWait]

theorem flowInv_runBlock (env : Env) (ctx0 : _demoContext_t) (s : State)
    (h : FlowInv env ctx0 s) (hpc : s.pc = Pc.run) : FlowInv env ctx0 (runBlock env s) := by
  obtain ⟨pc, ctx, alpn, iface, av, ret, mode, sub, tr⟩ := s
  simp only at hpc
  subst hpc
  simp only [FlowInv, FlowAt, Unresolved] at h
  unfold runBlock
  dsimp only
  split_ifs <;>
    simp_all [FlowInv, FlowAt, Unresolved, Queried, Chosen, hasType, firstAvailable,
      List.filter_append, Action.isCommit, Action.isDemoFn, Action.isSemaphoreWait]

theorem flowInv_unsubscribeBlock (env : Env) (ctx0 : _demoContext_t) (s : State)
    (h : FlowInv env ctx0 s) (hpc : s.pc = Pc.unsubscribe) :
    FlowInv env ctx0 (unsubscribeBlock env s) := by
  obtain ⟨pc, ctx, alpn, iface, av, ret, mode, sub, tr⟩ := s
  simp only at hpc
  subst hpc
  simp only [FlowInv, FlowAt] at h
  unfold unsubscribeBlock
  dsimp only
  split_ifs <;>
    simp_all [FlowInv, FlowAt, Queried, Chosen, hasType, firstAvailable,
      List.filter_append, Action.isCommit, Action.isDemoFn, Action.isSemaphoreWait]

theorem flowInv_destroyBlock (env : Env) (ctx0 : _demoContext_t) (s : State)
    (h : FlowInv env ctx0 s) (hpc : s.pc = Pc.destroy) : FlowInv env ctx0 (destroyBlock s) := by
  obtain ⟨pc, ctx, alpn, iface, av, ret, mode, sub, tr⟩ := s
  simp only at hpc
  subst hpc
  simp only [FlowInv, FlowAt] at h
  unfold destroyBlock
  dsimp only
  split_ifs <;>
    simp_all [FlowInv, FlowAt, Queried, Chosen, hasType, firstAvailable,
      List.filter_append, Action.isCommit, Action.isDemoFn, Action.isSemaphoreWait]

theorem flowInv_deleteBlock (env : Env) (ctx0 : _demoContext_t) (s : State)
    (h : FlowInv env ctx0 s) (hpc : s.pc = Pc.delete) : FlowInv env ctx0 (deleteBlock s) := by
  obtain ⟨pc, ctx, alpn, iface, av, ret, mode, sub, tr⟩ := s
  simp only at hpc
  subst hpc
  simp only [FlowInv, FlowAt] at h
  unfold deleteBlock
  simp_all [FlowInv, FlowAt, Queried, Chosen, hasType, firstAvailable,
    List.filter_append, Action.isCommit, Action.isDemoFn, Action.isSemaphoreWait]

theorem flowInv_flowStep (env : Env) (ctx0 : _demoContext_t) (s s' : State)
    (h : FlowInv env ctx0 s) (hs : flowStep env s = some s') : FlowInv env ctx0 s' := by
  unfold flowStep at hs
  split at hs
  · next hpc => cases hs; exact flowInv_createBlock env ctx0 s h hpc
  · next hpc => cases hs; exact flowInv_subscribeBlock env ctx0 s h hpc
  · next hpc => cases hs; exact flowInv_queryBlock env ctx0 s h hpc
  · next hpc => exact flowInv_blockForAvailableNetwork env ctx0 s s' h hpc hs
  · next hpc => cases hs; exact flowInv_resolveBlock env ctx0 s h hpc
  · next hpc => cases hs; exact flowInv_runBlock env ctx0 s h hpc
  · next hpc => cases hs; exact flowInv_unsubscribeBlock env ctx0 s h hpc
  · next hpc => cases hs; exact flowInv_destroyBlock env ctx0 s h hpc
  · next hpc => cases hs; exact flowInv_deleteBlock env ctx0 s h hpc
  · exact absurd hs (by simp)

theorem flowInv_step (env : Env) (ctx0 : _demoContext_t) (s : State) (m : Move)
    (h : FlowInv env ctx0 s) : FlowInv env ctx0 (step env s m) := by
  cases m with
  | flow =>
    unfold step
    cases hs : flowStep env s with
    | none => simpa using h
    | some s' => simpa using flowInv_flowStep env ctx0 s s' h hs
  | event networkType state => exact flowInv_callback env ctx0 s networkType state h

theorem flowInv_exec_from (env : Env) (ctx0 : _demoContext_t) (ms : List Move) :
    ∀ s : State, FlowInv env ctx0 s → FlowInv env ctx0 (exec env s ms) := by
  induction ms with
  | nil => intro s h; exact h
  | cons m ms ih => intro s h; exact ih (step env s m) (flowInv_step env ctx0 s m h)

/-- Every state the task and the callback can reach from the start of `_runDemoTask`
satisfies `FlowInv`. -/
theorem flowInv_exec (env : Env) (ctx0 : _demoContext_t) (ms : List Move) :
    FlowInv env ctx0 (exec env (initialState env ctx0) ms) :=
  flowInv_exec_from env ctx0 ms _ (flowInv_initialState env ctx0)

theorem ctxInv_initialState (env : Env) (ctx0 : _demoContext_t)
    (h0 : ctx0.connectedNetwork = env.AWSIOT_NETWORK_TYPE_NONE) :
    CtxInv env ctx0 (initialState env ctx0) := by
  simp [CtxInv, initialState, h0]

theorem ctxInv_callback (env : Env) (ctx0 : _demoContext_t) (s : State)
    (networkType : Nat) (state : AwsIotNetworkState_t) (h : CtxInv env ctx0 s) :
    CtxInv env ctx0 (_onNetworkStateChangeCallback env networkType state s) := by
  obtain ⟨pc, ctx, alpn, iface, av, ret, mode, sub, tr⟩ := s
  simp only [CtxInv] at h
  unfold _onNetworkStateChangeCallback
  dsimp only
  split_ifs <;>
    simp_all [CtxInv, List.filter_append, Action.isCommit]

theorem queried_hasType (env : Env) (ctx0 : _demoContext_t) (s : State) (w : Nat)
    (hq : Queried env ctx0 s) (hw : hasType s.availableNetworkTypes w) :
    hasType ctx0.networkTypes w := by
  rcases hq with ⟨_, hq⟩ | ⟨_, hq⟩
  · rw [hq] at hw; exact hasType_of_and _ _ _ hw
  · rw [hq] at hw; exact hasType_of_and _ _ _ hw

theorem ctxInv_resolveBlock (env : Env) (ctx0 : _demoContext_t) (s : State)
    (hf : FlowInv env ctx0 s) (h : CtxInv env ctx0 s) (hpc : s.pc = Pc.resolve) :
    CtxInv env ctx0 (resolveBlock env s) := by
  obtain ⟨_, _, _, _, _, hat⟩ := hf
  rw [hpc] at hat
  obtain ⟨_, hq, hu, _, _⟩ := hat
  obtain ⟨h1, _⟩ := h
  have hnone := h1 (by rw [hpc]; rfl)
  unfold resolveBlock
  by_cases hret : s.ret = true
  · have hq2 := hq hret
    by_cases hw : s.availableNetworkTypes &&& env.AWSIOT_NETWORK_TYPE_WIFI
        = env.AWSIOT_NETWORK_TYPE_WIFI
    · have := queried_hasType env ctx0 s _ hq2 hw
      simp [CtxInv, hret, hw, Pc.beforeCommit, List.filter_append, hu, Action.isCommit, this]
    · by_cases hb : s.availableNetworkTypes &&& env.AWSIOT_NETWORK_TYPE_BLE
          = env.AWSIOT_NETWORK_TYPE_BLE
      · have := queried_hasType env ctx0 s _ hq2 hb
        simp [CtxInv, hret, hw, hb, Pc.beforeCommit, List.filter_append, hu, Action.isCommit, this]
      · simp [CtxInv, hret, hw, hb, Pc.beforeCommit, hnone]
  · simp [CtxInv, hret, Pc.beforeCommit, hnone]

theorem ctxInv_flowStep (env : Env) (ctx0 : _demoContext_t) (s s' : State)
    (hf : FlowInv env ctx0 s) (h : CtxInv env ctx0 s) (hs : flowStep env s = some s') :
    CtxInv env ctx0 s' := by
  unfold flowStep at hs
  split at hs
  · next hpc =>
    cases hs
    obtain ⟨pc, ctx, alpn, iface, av, ret, mode, sub, tr⟩ := s
    simp only at hpc
    subst hpc
    unfold createBlock
    by_cases hc : env.semaphoreCreated = true <;>
      simp_all [CtxInv, Pc.beforeCommit, List.filter_append, Action.isCommit]
  · next hpc =>
    cases hs
    obtain ⟨pc, ctx, alpn, iface, av, ret, mode, sub, tr⟩ := s
    simp only at hpc
    subst hpc
    unfold subscribeBlock
    dsimp only
    split_ifs <;> simp_all [CtxInv, Pc.beforeCommit, List.filter_append, Action.isCommit]
  · next hpc =>
    cases hs
    obtain ⟨pc, ctx, alpn, iface, av, ret, mode, sub, tr⟩ := s
    simp only at hpc
    subst hpc
    unfold queryBlock
    dsimp only
    split_ifs <;> simp_all [CtxInv, Pc.beforeCommit, List.filter_append, Action.isCommit]
  · next hpc =>
    obtain ⟨pc, ctx, alpn, iface, av, ret, mode, sub, tr⟩ := s
    simp only at hpc
    subst hpc
    unfold _blockForAvailableNetwork at hs
    dsimp only at hs
    split at hs
    · exact absurd hs (by simp)
    · simp only [Option.some.injEq] at hs
      subst hs
      simp_all [CtxInv, Pc.beforeCommit, List.filter_append, Action.isCommit]
  · next hpc => cases hs; exact ctxInv_resolveBlock env ctx0 s hf h hpc
  · next hpc =>
    cases hs
    obtain ⟨pc, ctx, alpn, iface, av, ret, mode, sub, tr⟩ := s
    simp only at hpc
    subst hpc
    unfold runBlock
    dsimp only
    split_ifs <;> simp_all [CtxInv, Pc.beforeCommit, List.filter_append, Action.isCommit]
  · next hpc =>
    cases hs
    obtain ⟨pc, ctx, alpn, iface, av, ret, mode, sub, tr⟩ := s
    simp only at hpc
    subst hpc
    unfold unsubscribeBlock
    dsimp only
    split_ifs <;> simp_all [CtxInv, Pc.beforeCommit, List.filter_append, Action.isCommit]
  · next hpc =>
    cases hs
    obtain ⟨pc, ctx, alpn, iface, av, ret, mode, sub, tr⟩ := s
    simp only at hpc
    subst hpc
    unfold destroyBlock
    dsimp only
    split_ifs <;> simp_all [CtxInv, Pc.beforeCommit, List.filter_append, Action.isCommit]
  · next hpc =>
    cases hs
    obtain ⟨pc, ctx, alpn, iface, av, ret, mode, sub, tr⟩ := s
    simp only at hpc
    subst hpc
    unfold deleteBlock
    simp_all [CtxInv, Pc.beforeCommit, List.filter_append, Action.isCommit]
  · exact absurd hs (by simp)

theorem ctxInv_step (env : Env) (ctx0 : _demoContext_t) (s : State) (m : Move)
    (hf : FlowInv env ctx0 s) (h : CtxInv env ctx0 s) : CtxInv env ctx0 (step env s m) := by
  cases m with
  | flow =>
    unfold step
    cases hs : flowStep env s with
    | none => simpa using h
    | some s' => simpa using ctxInv_flowStep env ctx0 s s' hf h hs
  | event networkType state => exact ctxInv_callback env ctx0 s networkType state h

theorem ctxInv_exec_from (env : Env) (ctx0 : _demoContext_t) (ms : List Move) :
    ∀ s : State, FlowInv env ctx0 s → CtxInv env ctx0 s → CtxInv env ctx0 (exec env s ms) := by
  induction ms with
  | nil => intro s _ h; exact h
  | cons m ms ih =>
    intro s hf h
    exact ih (step env s m) (flowInv_step env ctx0 s m hf) (ctxInv_step env ctx0 s m hf h)

/-- Every state the task and the callback can reach from the start of `_runDemoTask`,
on a context whose `connectedNetwork` is `NONE`, satisfies `CtxInv`. -/
theorem ctxInv_exec (env : Env) (ctx0 : _demoContext_t) (ms : List Move)
    (h0 : ctx0.connectedNetwork = env.AWSIOT_NETWORK_TYPE_NONE) :
    CtxInv env ctx0 (exec env (initialState env ctx0) ms) :=
  ctxInv_exec_from env ctx0 ms _ (flowInv_initialState env ctx0) (ctxInv_initialState env ctx0 h0)

/-! Theorems about the block of lines 217-248 and about the callback. -/

/-- C1. Priority law of the block of lines 217-248, for every pair of bitmasks
`connected`, `acceptable` and `available = connected & acceptable`: when `available`
has the Wi-Fi bits the block stores `WIFI` in `connectedNetwork` and requests the Wi-Fi
interface, whatever other bits are set; and, the two constants being different, the
block commits `BLE` exactly when `available` has the BLE bits and not the Wi-Fi bits. -/
theorem priority_law (env : Env) (ctx : _demoContext_t) (connected acceptable : Nat) :
    (hasType (connected &&& acceptable) env.AWSIOT_NETWORK_TYPE_WIFI →
      (resolveBlock env (resolveInput env ctx connected acceptable)).ctx.connectedNetwork
          = env.AWSIOT_NETWORK_TYPE_WIFI ∧
      (resolveBlock env (resolveInput env ctx connected acceptable)).pNetworkInterface
          = some (env.getNetworkInterface env.AWSIOT_NETWORK_TYPE_WIFI) ∧
      (resolveBlock env (resolveInput env ctx connected acceptable)).trace
          = [Action.commit env.AWSIOT_NETWORK_TYPE_WIFI,
             Action.getNetworkInterface env.AWSIOT_NETWORK_TYPE_WIFI] ∧
      (resolveBlock env (resolveInput env ctx connected acceptable)).ret = true) ∧
    (env.AWSIOT_NETWORK_TYPE_WIFI ≠ env.AWSIOT_NETWORK_TYPE_BLE →
      (Action.commit env.AWSIOT_NETWORK_TYPE_BLE ∈
          (resolveBlock env (resolveInput env ctx connected acceptable)).trace ↔
        hasType (connected &&& acceptable) env.AWSIOT_NETWORK_TYPE_BLE ∧
        ¬ hasType (connected &&& acceptable) env.AWSIOT_NETWORK_TYPE_WIFI)) := by
  constructor
  · intro h
    unfold hasType at h
    simp [resolveBlock, resolveInput, initialState, h]
  · intro hne
    unfold hasType
    by_cases hw : (connected &&& acceptable) &&& env.AWSIOT_NETWORK_TYPE_WIFI
        = env.AWSIOT_NETWORK_TYPE_WIFI
    · simp [resolveBlock, resolveInput, initialState, hw, Ne.symm hne]
    · by_cases hb : (connected &&& acceptable) &&& env.AWSIOT_NETWORK_TYPE_BLE
          = env.AWSIOT_NETWORK_TYPE_BLE
      · simp [resolveBlock, resolveInput, initialState, hw, hb]
      · simp [resolveBlock, resolveInput, initialState, hw, hb]

/-- C1, witness: with Wi-Fi and BLE both connected and both acceptable the block commits
Wi-Fi and does not commit BLE. -/
theorem priority_law_witness :
    hasType (3 &&& 3) sampleEnv.AWSIOT_NETWORK_TYPE_WIFI ∧
    sampleEnv.AWSIOT_NETWORK_TYPE_WIFI ≠ sampleEnv.AWSIOT_NETWORK_TYPE_BLE ∧
    (resolveBlock sampleEnv
        (resolveInput sampleEnv (mqttBleEchoDemoContext sampleEnv) 3 3)).ctx.connectedNetwork = 1 ∧
    Action.commit 2 ∉
      (resolveBlock sampleEnv (resolveInput sampleEnv (mqttBleEchoDemoContext sampleEnv) 3 3)).trace :=
  ⟨by decide, by decide,
   ((priority_law sampleEnv (mqttBleEchoDemoContext sampleEnv) 3 3).1 (by decide)).1,
   fun h => (((priority_law sampleEnv (mqttBleEchoDemoContext sampleEnv) 3 3).2 (by decide)).1 h).2
     (by decide)⟩

/-- C2, as stated, fails: with only a third network type connected and acceptable
(bit 4 where Wi-Fi is 1 and BLE is 2) `available` is not zero, yet the block takes
its last branch: `ret` becomes false and nothing is committed. -/
theorem unsupported_iff_zero_counterexample :
    (4 &&& 4 ≠ 0) ∧
    (resolveBlock sampleEnv (resolveInput sampleEnv (mqttDemoContext sampleEnv) 4 4)).ret = false ∧
    (resolveBlock sampleEnv (resolveInput sampleEnv (mqttDemoContext sampleEnv) 4 4)).trace = [] ∧
    (resolveBlock sampleEnv (resolveInput sampleEnv (mqttDemoContext sampleEnv) 4 4)).ctx
      = (resolveInput sampleEnv (mqttDemoContext sampleEnv) 4 4).ctx := by
  decide

/-- C2, amended. For every pair of bitmasks `connected`, `acceptable` and
`available = connected & acceptable`, the block of lines 217-248 reports Unsupported
(`ret` false, context and trace untouched) if and only if `available` has neither the
Wi-Fi bits nor the BLE bits; this is the case whenever `available` is 0, the two
network types not being 0. -/
theorem unsupported_iff_neither (env : Env) (ctx : _demoContext_t) (connected acceptable : Nat) :
    ((resolveBlock env (resolveInput env ctx connected acceptable)).ret = false ↔
      ¬ hasType (connected &&& acceptable) env.AWSIOT_NETWORK_TYPE_WIFI ∧
      ¬ hasType (connected &&& acceptable) env.AWSIOT_NETWORK_TYPE_BLE) ∧
    ((resolveBlock env (resolveInput env ctx connected acceptable)).ret = false →
      (resolveBlock env (resolveInput env ctx connected acceptable)).ctx
          = (resolveInput env ctx connected acceptable).ctx ∧
      (resolveBlock env (resolveInput env ctx connected acceptable)).trace = []) ∧
    (env.AWSIOT_NETWORK_TYPE_WIFI ≠ 0 → env.AWSIOT_NETWORK_TYPE_BLE ≠ 0 →
      connected &&& acceptable = 0 →
      (resolveBlock env (resolveInput env ctx connected acceptable)).ret = false) := by
  unfold hasType
  by_cases hw : (connected &&& acceptable) &&& env.AWSIOT_NETWORK_TYPE_WIFI
      = env.AWSIOT_NETWORK_TYPE_WIFI
  · refine ⟨?_, ?_, ?_⟩
    · simp [resolveBlock, resolveInput, initialState, hw]
    · simp [resolveBlock, resolveInput, initialState, hw]
    · intro h1 _ h0
      rw [h0, Nat.zero_and] at hw
      exact absurd hw.symm h1
  · by_cases hb : (connected &&& acceptable) &&& env.AWSIOT_NETWORK_TYPE_BLE
        = env.AWSIOT_NETWORK_TYPE_BLE
    · refine ⟨?_, ?_, ?_⟩
      · simp [resolveBlock, resolveInput, initialState, hw, hb]
      · simp [resolveBlock, resolveInput, initialState, hw, hb]
      · intro _ h2 h0
        rw [h0, Nat.zero_and] at hb
        exact absurd hb.symm h2
    · simp [resolveBlock, resolveInput, initialState, hw, hb]

/-- C2, amended, witness: nothing connected, Wi-Fi acceptable. -/
theorem unsupported_iff_neither_witness :
    sampleEnv.AWSIOT_NETWORK_TYPE_WIFI ≠ 0 ∧ sampleEnv.AWSIOT_NETWORK_TYPE_BLE ≠ 0 ∧
    0 &&& 1 = 0 ∧
    (resolveBlock sampleEnv (resolveInput sampleEnv (mqttDemoContext sampleEnv) 0 1)).ret = false :=
  ⟨by decide, by decide, by decide,
   (unsupported_iff_neither sampleEnv (mqttDemoContext sampleEnv) 0 1).2.2
     (by decide) (by decide) (by decide)⟩


/-! Theorems about whole runs of `_runDemoTask`, alone or interleaved with the callback. -/

/-- When the demo entry point has been called, `ret` is true, the semaphore was created,
the subscription succeeded, a network was chosen, and the call is the only one, made
with the local variables of `_runDemoTask`. -/
theorem demo_called (env : Env) (ctx0 : _demoContext_t) (s : State) (h : FlowInv env ctx0 s)
    (a : Action) (ha : a ∈ s.trace) (hd : a.isDemoFn = true) :
    s.ret = true ∧ env.semaphoreCreated = true ∧ env.subscribed = true ∧ Chosen env s ∧
    s.trace.filter Action.isDemoFn = [a] ∧
    a = Action.demoFn s.awsIotMqttMode env.clientcredentialIOT_THING_NAME env.port
          s.pAlpnProtos s.pNetworkInterface := by
  have hmem : a ∈ s.trace.filter Action.isDemoFn := List.mem_filter.mpr ⟨ha, hd⟩
  obtain ⟨_, _, _, _, _, hat⟩ := h
  have key : ∀ pc : Pc, FlowAt env ctx0 s pc →
      s.ret = true ∧ env.semaphoreCreated = true ∧ env.subscribed = true ∧ Chosen env s ∧
      s.trace.filter Action.isDemoFn =
        [Action.demoFn s.awsIotMqttMode env.clientcredentialIOT_THING_NAME env.port
          s.pAlpnProtos s.pNetworkInterface] := by
    intro pc hpc
    have nil : s.trace.filter Action.isDemoFn = [] → False := fun h0 => by
      rw [h0] at hmem
      exact absurd hmem (List.not_mem_nil _)
    cases pc <;> simp only [FlowAt, Unresolved] at hpc <;>
      first
      | exact (nil hpc.2.2.1).elim
      | exact (nil hpc.2.2.2.2.2.1).elim
      | exact (nil hpc.2.2.2.1).elim
      | exact (nil hpc.2.2.2).elim
      | (by_cases hret : s.ret = true
         · obtain ⟨h1, h2, h3, h4⟩ := hpc.2.1 hret
           exact ⟨hret, h1, h2, h3, h4⟩
         · exact (nil (hpc.2.2 (by simpa using hret)).2.1).elim)
  obtain ⟨k1, k2, k3, k4, k5⟩ := key s.pc hat
  rw [k5] at hmem
  have ha' := List.mem_singleton.mp hmem
  exact ⟨k1, k2, k3, k4, by rw [k5, ha'], ha'⟩

/-- C3. In every run of `_runDemoTask`, interleaved in any way with the callback, in
which the demo entry point is called: exactly one network type was committed, and the
`awsIotMqttMode` argument is true exactly when that type is `WIFI` and false exactly
when it is `BLE` (the two constants being different). -/
theorem mqttMode_matches_committed (env : Env) (ctx : _demoContext_t) (ms : List Move)
    (hne : env.AWSIOT_NETWORK_TYPE_WIFI ≠ env.AWSIOT_NETWORK_TYPE_BLE)
    (awsIotMqttMode : Bool) (pIdentifier : String) (port : Nat)
    (pAlpnProtos pNetworkInterface : Option Nat)
    (hdemo : Action.demoFn awsIotMqttMode pIdentifier port pAlpnProtos pNetworkInterface ∈
      (exec env (initialState env ctx) ms).trace) :
    ∃ committed : Nat,
      (exec env (initialState env ctx) ms).trace.filter Action.isCommit
        = [Action.commit committed] ∧
      (awsIotMqttMode = true ↔ committed = env.AWSIOT_NETWORK_TYPE_WIFI) ∧
      (awsIotMqttMode = false ↔ committed = env.AWSIOT_NETWORK_TYPE_BLE) := by
  obtain ⟨_, _, _, hch, _, ha⟩ :=
    demo_called env ctx _ (flowInv_exec env ctx ms) _ hdemo rfl
  simp only [Action.demoFn.injEq] at ha
  obtain ⟨hmode, _⟩ := ha
  rcases hch with ⟨_, hc, hm, _⟩ | ⟨_, _, hc, hm, _⟩
  · refine ⟨env.AWSIOT_NETWORK_TYPE_WIFI, hc, ?_, ?_⟩
    · simp [hmode, hm]
    · simp [hmode, hm, hne]
  · refine ⟨env.AWSIOT_NETWORK_TYPE_BLE, hc, ?_, ?_⟩
    · simp [hmode, hm, Ne.symm hne]
    · simp [hmode, hm]

/-- C3, witness: the task alone with Wi-Fi connected calls the demo with
`awsIotMqttMode = true` after committing `WIFI`. -/
theorem mqttMode_matches_committed_witness :
    sampleEnv.AWSIOT_NETWORK_TYPE_WIFI ≠ sampleEnv.AWSIOT_NETWORK_TYPE_BLE ∧
    Action.demoFn true "thing" 8883 none (some 101) ∈
      (exec sampleEnv (initialState sampleEnv (mqttDemoContext sampleEnv)) taskAlone).trace ∧
    ∃ committed : Nat,
      (exec sampleEnv (initialState sampleEnv (mqttDemoContext sampleEnv)) taskAlone).trace.filter
        Action.isCommit = [Action.commit committed] ∧
      (true = true ↔ committed = sampleEnv.AWSIOT_NETWORK_TYPE_WIFI) ∧
      (true = false ↔ committed = sampleEnv.AWSIOT_NETWORK_TYPE_BLE) :=
  ⟨by decide, by decide,
   mqttMode_matches_committed sampleEnv (mqttDemoContext sampleEnv) taskAlone (by decide)
     true "thing" 8883 none (some 101) (by decide)⟩

/-- C4, as stated, fails: with BLE the resolved network and the server port 8883, not
443, the demo entry point receives the ALPN list of the initializer, not `NULL`. -/
theorem alpn_cleared_iff_counterexample :
    bleEnv.port ≠ 443 ∧
    (_runDemoTask bleEnv 9 (initialState bleEnv (mqttBleEchoDemoContext bleEnv))).trace =
      [Action.semaphoreCreate 0 1, Action.subscribeForStateChange 3,
       Action.getConnectedNetworks, Action.commit 2, Action.getNetworkInterface 2,
       Action.demoFn false "thing" 8883 (some 7) (some 102), Action.logInfo,
       Action.removeSubscription 1, Action.semaphoreDestroy, Action.taskDelete] := by
  decide

/-- C4, amended. In every run of `_runDemoTask`, interleaved in any way with the
callback, a call of the demo entry point carries the server port of the initializer
and: when the committed type is `WIFI`, the ALPN list of the initializer if the port
is 443 and `NULL` otherwise, so that a configured list is cleared if and only if the
port is not 443; when the committed type is `BLE`, the ALPN list of the initializer,
whatever the port. -/
theorem alpn_cleared_on_wifi_only (env : Env) (ctx : _demoContext_t) (ms : List Move)
    (awsIotMqttMode : Bool) (pIdentifier : String) (port : Nat)
    (pAlpnProtos pNetworkInterface : Option Nat)
    (hdemo : Action.demoFn awsIotMqttMode pIdentifier port pAlpnProtos pNetworkInterface ∈
      (exec env (initialState env ctx) ms).trace) :
    port = env.port ∧
    (((exec env (initialState env ctx) ms).trace.filter Action.isCommit
          = [Action.commit env.AWSIOT_NETWORK_TYPE_WIFI] ∧
        pAlpnProtos = (if env.port ≠ 443 then none else env.pAlpnProtos) ∧
        (env.pAlpnProtos ≠ none → (pAlpnProtos = none ↔ env.port ≠ 443))) ∨
      ((exec env (initialState env ctx) ms).trace.filter Action.isCommit
          = [Action.commit env.AWSIOT_NETWORK_TYPE_BLE] ∧
        pAlpnProtos = env.pAlpnProtos)) := by
  obtain ⟨_, _, _, hch, _, ha⟩ :=
    demo_called env ctx _ (flowInv_exec env ctx ms) _ hdemo rfl
  simp only [Action.demoFn.injEq] at ha
  obtain ⟨_, _, hport, halpn, _⟩ := ha
  refine ⟨hport, ?_⟩
  rcases hch with ⟨_, hc, _, _, hal⟩ | ⟨_, _, hc, _, _, hal⟩
  · left
    refine ⟨hc, by rw [halpn, hal], ?_⟩
    intro hcfg
    rw [halpn, hal]
    by_cases hp : env.port = 443
    · simp [hp, hcfg]
    · simp [hp]
  · right
    exact ⟨hc, by rw [halpn, hal]⟩

/-- C4, amended, witness: Wi-Fi committed, port 8883, ALPN cleared. -/
theorem alpn_cleared_on_wifi_only_witness :
    Action.demoFn true "thing" 8883 none (some 101) ∈
      (exec sampleEnv (initialState sampleEnv (mqttDemoContext sampleEnv)) taskAlone).trace ∧
    8883 = sampleEnv.port :=
  ⟨by decide,
   (alpn_cleared_on_wifi_only sampleEnv (mqttDemoContext sampleEnv) taskAlone
     true "thing" 8883 none (some 101) (by decide)).1⟩

/-- C5. In every run of `_runDemoTask`, interleaved in any way with the callback, the
demo entry point is called at most once, and it is not called when the creation of the
semaphore fails, when the subscription fails, or when the block of lines 217-248
reports Unsupported (the available types have neither the Wi-Fi nor the BLE bits, and
`ret` is false). -/
theorem demo_not_invoked_on_failure (env : Env) (ctx : _demoContext_t) (ms : List Move) :
    ((exec env (initialState env ctx) ms).trace.filter Action.isDemoFn).length ≤ 1 ∧
    (env.semaphoreCreated = false →
      (exec env (initialState env ctx) ms).trace.filter Action.isDemoFn = []) ∧
    (env.subscribed = false →
      (exec env (initialState env ctx) ms).trace.filter Action.isDemoFn = []) ∧
    (¬ hasType (exec env (initialState env ctx) ms).availableNetworkTypes
          env.AWSIOT_NETWORK_TYPE_WIFI →
      ¬ hasType (exec env (initialState env ctx) ms).availableNetworkTypes
          env.AWSIOT_NETWORK_TYPE_BLE →
      (exec env (initialState env ctx) ms).trace.filter Action.isDemoFn = []) ∧
    ((exec env (initialState env ctx) ms).ret = false →
      (exec env (initialState env ctx) ms).trace.filter Action.isDemoFn = []) := by
  have hinv := flowInv_exec env ctx ms
  generalize exec env (initialState env ctx) ms = s at hinv ⊢
  cases hf : s.trace.filter Action.isDemoFn with
  | nil => simp
  | cons a rest =>
    have hmem : a ∈ s.trace.filter Action.isDemoFn := by rw [hf]; exact List.mem_cons_self _ _
    obtain ⟨hat, hd⟩ := List.mem_filter.mp hmem
    obtain ⟨hret, hc, hsub, hch, hone, _⟩ := demo_called env ctx s hinv a hat hd
    rw [hf] at hone
    refine ⟨by rw [hone]; simp, ?_, ?_, ?_, ?_⟩
    · intro h; rw [hc] at h; exact absurd h (by simp)
    · intro h; rw [hsub] at h; exact absurd h (by simp)
    · intro hw hb
      rcases hch with ⟨hw', _⟩ | ⟨_, hb', _⟩
      · exact absurd hw' hw
      · exact absurd hb' hb
    · intro h; rw [hret] at h; exact absurd h (by simp)

/-- C5, witness: when the subscription fails the demo entry point is not called. -/
theorem demo_not_invoked_on_failure_witness :
    subscribeFailsEnv.subscribed = false ∧
    (exec subscribeFailsEnv (initialState subscribeFailsEnv (mqttDemoContext subscribeFailsEnv))
      taskAlone).trace.filter Action.isDemoFn = [] :=
  ⟨by decide,
   (demo_not_invoked_on_failure subscribeFailsEnv (mqttDemoContext subscribeFailsEnv)
     taskAlone).2.2.1 (by decide)⟩

/-- C6, the code at two failing inputs. The semaphore is created and the subscription
fails: `_runDemoTask` terminates without calling `IotSemaphore_Destroy`, and the
semaphore still exists. The semaphore is created, the subscription succeeds, a Wi-Fi
enabled event ends the wait, and the second query finds no network (Unsupported): again
the task terminates and the semaphore still exists. -/
theorem semaphore_not_destroyed_on_failure :
    subscribeFailsEnv.semaphoreCreated = true ∧
    (_runDemoTask subscribeFailsEnv 9
      (initialState subscribeFailsEnv (mqttDemoContext subscribeFailsEnv))).pc = Pc.terminated ∧
    (_runDemoTask subscribeFailsEnv 9
      (initialState subscribeFailsEnv (mqttDemoContext subscribeFailsEnv))).trace =
      [Action.semaphoreCreate 0 1, Action.subscribeForStateChange 1, Action.logError,
       Action.taskDelete] ∧
    (_runDemoTask subscribeFailsEnv 9
      (initialState subscribeFailsEnv (mqttDemoContext subscribeFailsEnv))).ctx.networkSemaphore =
      some { count := 0, maxValue := 1 } ∧
    nothingConnectedEnv.semaphoreCreated = true ∧
    (exec nothingConnectedEnv
      (initialState nothingConnectedEnv (mqttDemoContext nothingConnectedEnv))
      wifiEnabledWhileWaiting).pc = Pc.terminated ∧
    (exec nothingConnectedEnv
      (initialState nothingConnectedEnv (mqttDemoContext nothingConnectedEnv))
      wifiEnabledWhileWaiting).trace =
      [Action.semaphoreCreate 0 1, Action.subscribeForStateChange 1,
       Action.getConnectedNetworks, Action.semaphorePost, Action.semaphoreWait,
       Action.getConnectedNetworks, Action.removeSubscription 1, Action.taskDelete] ∧
    (exec nothingConnectedEnv
      (initialState nothingConnectedEnv (mqttDemoContext nothingConnectedEnv))
      wifiEnabledWhileWaiting).ctx.networkSemaphore = some { count := 0, maxValue := 1 } := by
  decide

/-- A disabled event of a type other than `connectedNetwork` leaves the state as it is. -/
theorem callback_disabled_other (env : Env) (s : State) (networkType : Nat)
    (hne : networkType ≠ s.ctx.connectedNetwork) :
    _onNetworkStateChangeCallback env networkType
      AwsIotNetworkState_t.eNetworkStateDisabled s = s := by
  simp [_onNetworkStateChangeCallback, Ne.symm hne]

/-- C7. For every context and every disabled event: when the type of the event differs
from `connectedNetwork` the callback changes nothing at all (no store, no hook, no
post); when it is equal, `connectedNetwork` becomes `NONE`, nothing else in the state
changes, and the disconnect hook, when one is registered, is called once with the
interface of that type. So the disconnect hook is called only for the committed type. -/
theorem disabled_event_effect (env : Env) (s : State) (networkType : Nat) :
    (networkType ≠ s.ctx.connectedNetwork →
      _onNetworkStateChangeCallback env networkType
        AwsIotNetworkState_t.eNetworkStateDisabled s = s) ∧
    (networkType = s.ctx.connectedNetwork →
      _onNetworkStateChangeCallback env networkType
        AwsIotNetworkState_t.eNetworkStateDisabled s =
        { s with
          ctx := { s.ctx with connectedNetwork := env.AWSIOT_NETWORK_TYPE_NONE }
          trace := s.trace ++
            (match s.ctx.onNetworkDisconnectedFn with
             | none => []
             | some _ =>
               [Action.getNetworkInterface networkType,
                Action.onNetworkDisconnectedFn (some (env.getNetworkInterface networkType))]) }) ∧
    ((_onNetworkStateChangeCallback env networkType
        AwsIotNetworkState_t.eNetworkStateDisabled s).trace.filter Action.isOnNetworkDisconnectedFn
        ≠ s.trace.filter Action.isOnNetworkDisconnectedFn →
      networkType = s.ctx.connectedNetwork) := by
  have hno := callback_disabled_other env s networkType
  refine ⟨hno, ?_, ?_⟩
  · intro heq
    cases hh : s.ctx.onNetworkDisconnectedFn with
    | none => simp [_onNetworkStateChangeCallback, heq, hh]
    | some f => simp [_onNetworkStateChangeCallback, heq, hh]
  · intro hchg
    by_contra hne
    exact hchg (by rw [hno hne])

/-- C7, witness: Wi-Fi committed, disconnect hook registered, Wi-Fi disabled. -/
theorem disabled_event_effect_witness :
    (_onNetworkStateChangeCallback sampleEnv 1 AwsIotNetworkState_t.eNetworkStateDisabled
      (exec sampleEnv (initialState sampleEnv (mqttBleEchoDemoContext sampleEnv))
        [Move.flow, Move.flow, Move.flow, Move.flow])).trace =
      [Action.semaphoreCreate 0 1, Action.subscribeForStateChange 3,
       Action.getConnectedNetworks, Action.commit 1, Action.getNetworkInterface 1,
       Action.getNetworkInterface 1, Action.onNetworkDisconnectedFn (some 101)] :=
  (congrArg State.trace
    ((disabled_event_effect sampleEnv
      (exec sampleEnv (initialState sampleEnv (mqttBleEchoDemoContext sampleEnv))
        [Move.flow, Move.flow, Move.flow, Move.flow]) 1).2.1 (by decide))).trans (by decide)

/-- A block of `_runDemoTask` other than that of lines 217-248 does not store to
`connectedNetwork`. -/
theorem flowStep_connectedNetwork (env : Env) (s s' : State) (hpc : s.pc ≠ Pc.resolve)
    (hs : flowStep env s = some s') : s'.ctx.connectedNetwork = s.ctx.connectedNetwork := by
  unfold flowStep at hs
  split at hs
  · cases hs; unfold createBlock; by_cases hc : env.semaphoreCreated = true <;> simp [hc]
  · cases hs; unfold subscribeBlock; dsimp only; split_ifs <;> rfl
  · cases hs; unfold queryBlock; dsimp only; split_ifs <;> rfl
  · unfold _blockForAvailableNetwork at hs
    dsimp only at hs
    split at hs
    · exact absurd hs (by simp)
    · simp only [Option.some.injEq] at hs
      subst hs
      rfl
  · next h => exact absurd h hpc
  · cases hs; unfold runBlock; split_ifs <;> rfl
  · cases hs; unfold unsubscribeBlock; split_ifs <;> rfl
  · cases hs; unfold destroyBlock; split_ifs <;> rfl
  · cases hs; rfl
  · exact absurd hs (by simp)

/-- C8. In every state reachable by blocks of `_runDemoTask` interleaved with arbitrary
events, from a context whose `connectedNetwork` is `NONE`: the acceptable types are
those of the initial context; `connectedNetwork` is `NONE` or a type all of whose bits
are acceptable; it is `NONE` as long as `_runDemoTask` has committed nothing, and when
it is not `NONE` it is the one committed type; and the only move that takes it from
a committed type back to `NONE` is a disabled event of that very type. -/
theorem connectedNetwork_invariant (env : Env) (ctx : _demoContext_t) (ms : List Move)
    (h0 : ctx.connectedNetwork = env.AWSIOT_NETWORK_TYPE_NONE) :
    (exec env (initialState env ctx) ms).ctx.networkTypes = ctx.networkTypes ∧
    ((exec env (initialState env ctx) ms).ctx.connectedNetwork = env.AWSIOT_NETWORK_TYPE_NONE ∨
      hasType (exec env (initialState env ctx) ms).ctx.networkTypes
        (exec env (initialState env ctx) ms).ctx.connectedNetwork) ∧
    ((exec env (initialState env ctx) ms).trace.filter Action.isCommit = [] →
      (exec env (initialState env ctx) ms).ctx.connectedNetwork = env.AWSIOT_NETWORK_TYPE_NONE) ∧
    ((exec env (initialState env ctx) ms).ctx.connectedNetwork ≠ env.AWSIOT_NETWORK_TYPE_NONE →
      (exec env (initialState env ctx) ms).trace.filter Action.isCommit =
        [Action.commit (exec env (initialState env ctx) ms).ctx.connectedNetwork]) ∧
    (∀ m : Move,
      (exec env (initialState env ctx) ms).ctx.connectedNetwork ≠ env.AWSIOT_NETWORK_TYPE_NONE →
      (step env (exec env (initialState env ctx) ms) m).ctx.connectedNetwork
        = env.AWSIOT_NETWORK_TYPE_NONE →
      m = Move.event (exec env (initialState env ctx) ms).ctx.connectedNetwork
            AwsIotNetworkState_t.eNetworkStateDisabled) := by
  have hf := flowInv_exec env ctx ms
  have hc := ctxInv_exec env ctx ms h0
  generalize exec env (initialState env ctx) ms = s at hf hc ⊢
  obtain ⟨hty, _⟩ := hf
  obtain ⟨hbefore, hcn⟩ := hc
  refine ⟨hty, ?_, ?_, ?_, ?_⟩
  · rcases hcn with h | ⟨_, h⟩
    · exact Or.inl h
    · right; rw [hty]; exact h
  · intro hnil
    rcases hcn with h | ⟨h, _⟩
    · exact h
    · rw [hnil] at h; exact absurd h (by simp)
  · intro hne
    rcases hcn with h | ⟨h, _⟩
    · exact absurd h hne
    · exact h
  · intro m hne hnone
    cases m with
    | flow =>
      exfalso
      have hpc : s.pc ≠ Pc.resolve := by
        intro hpc
        exact hne (hbefore (by rw [hpc]; rfl))
      simp only [step] at hnone
      cases hs : flowStep env s with
      | none => rw [hs] at hnone; exact hne hnone
      | some s' =>
        rw [hs] at hnone
        have := flowStep_connectedNetwork env s s' hpc hs
        simp only [Option.getD_some] at hnone
        rw [this] at hnone
        exact hne hnone
    | event networkType state =>
      simp only [step] at hnone
      cases state with
      | eNetworkStateUnknown =>
        simp [_onNetworkStateChangeCallback] at hnone
        exact absurd hnone hne
      | eNetworkStateEnabled =>
        simp only [_onNetworkStateChangeCallback, if_true, if_neg hne] at hnone
        exact absurd hnone hne
      | eNetworkStateDisabled =>
        by_cases ht : networkType = s.ctx.connectedNetwork
        · rw [ht]
        · rw [callback_disabled_other env s networkType ht] at hnone
          exact absurd hnone hne

/-- C8, witness: after Wi-Fi was committed and then disabled, `connectedNetwork` is
`NONE` again and the acceptable types are unchanged. -/
theorem connectedNetwork_invariant_witness :
    (mqttBleEchoDemoContext sampleEnv).connectedNetwork = sampleEnv.AWSIOT_NETWORK_TYPE_NONE ∧
    (exec sampleEnv (initialState sampleEnv (mqttBleEchoDemoContext sampleEnv))
      [Move.flow, Move.flow, Move.flow, Move.flow,
       Move.event 1 AwsIotNetworkState_t.eNetworkStateDisabled]).ctx.networkTypes = 3 :=
  ⟨by decide,
   (connectedNetwork_invariant sampleEnv (mqttBleEchoDemoContext sampleEnv)
      [Move.flow, Move.flow, Move.flow, Move.flow,
       Move.event 1 AwsIotNetworkState_t.eNetworkStateDisabled] (by decide)).1.trans (by decide)⟩

/-- No block of `_runDemoTask` calls the connect hook or the disconnect hook. -/
theorem flowStep_hooks (env : Env) (s s' : State) (hs : flowStep env s = some s') :
    s'.trace.filter Action.isOnNetworkConnectedFn
      = s.trace.filter Action.isOnNetworkConnectedFn ∧
    s'.trace.filter Action.isOnNetworkDisconnectedFn
      = s.trace.filter Action.isOnNetworkDisconnectedFn := by
  unfold flowStep at hs
  split at hs
  · cases hs
    simp [createBlock, List.filter_append, Action.isOnNetworkConnectedFn,
      Action.isOnNetworkDisconnectedFn]
  · cases hs; unfold subscribeBlock; dsimp only
    split_ifs <;> simp [List.filter_append, Action.isOnNetworkConnectedFn,
      Action.isOnNetworkDisconnectedFn]
  · cases hs; unfold queryBlock; dsimp only
    split_ifs <;> simp [List.filter_append, Action.isOnNetworkConnectedFn,
      Action.isOnNetworkDisconnectedFn]
  · unfold _blockForAvailableNetwork at hs
    dsimp only at hs
    split at hs
    · exact absurd hs (by simp)
    · simp only [Option.some.injEq] at hs
      subst hs
      simp [List.filter_append, Action.isOnNetworkConnectedFn, Action.isOnNetworkDisconnectedFn]
  · cases hs; unfold resolveBlock
    split_ifs <;> simp [List.filter_append, Action.isOnNetworkConnectedFn,
      Action.isOnNetworkDisconnectedFn]
  · cases hs; unfold runBlock
    split_ifs <;> simp [List.filter_append, Action.isOnNetworkConnectedFn,
      Action.isOnNetworkDisconnectedFn]
  · cases hs; unfold unsubscribeBlock
    split_ifs <;> simp [List.filter_append, Action.isOnNetworkConnectedFn,
      Action.isOnNetworkDisconnectedFn]
  · cases hs; unfold destroyBlock
    split_ifs <;> simp [List.filter_append, Action.isOnNetworkConnectedFn,
      Action.isOnNetworkDisconnectedFn]
  · cases hs
    simp [deleteBlock, List.filter_append, Action.isOnNetworkConnectedFn,
      Action.isOnNetworkDisconnectedFn]
  · exact absurd hs (by simp)

/-- The callback calls the connect hook only for an enabled event, while
`connectedNetwork` is `NONE` and a connect hook is registered. -/
theorem callback_connected_hook (env : Env) (s : State) (networkType : Nat)
    (state : AwsIotNetworkState_t)
    (hchg : (_onNetworkStateChangeCallback env networkType state s).trace.filter
        Action.isOnNetworkConnectedFn ≠ s.trace.filter Action.isOnNetworkConnectedFn) :
    state = AwsIotNetworkState_t.eNetworkStateEnabled ∧
    s.ctx.connectedNetwork = env.AWSIOT_NETWORK_TYPE_NONE ∧
    s.ctx.onNetworkConnectedFn ≠ none := by
  by_cases h1 : state = AwsIotNetworkState_t.eNetworkStateEnabled
  · by_cases h2 : s.ctx.connectedNetwork = env.AWSIOT_NETWORK_TYPE_NONE
    · by_cases h3 : s.ctx.onNetworkConnectedFn = none
      · exact absurd (by simp [_onNetworkStateChangeCallback, h1, h2, h3, List.filter_append,
          Action.isOnNetworkConnectedFn]) hchg
      · exact ⟨h1, h2, h3⟩
    · exact absurd (by simp [_onNetworkStateChangeCallback, h1, h2]) hchg
  · by_cases h4 : state = AwsIotNetworkState_t.eNetworkStateDisabled
    · by_cases h5 : s.ctx.connectedNetwork = networkType
      · by_cases h6 : s.ctx.onNetworkDisconnectedFn = none
        · exact absurd (by simp [_onNetworkStateChangeCallback, h4, h5, h6]) hchg
        · exact absurd (by simp [_onNetworkStateChangeCallback, h4, h5, h6, List.filter_append,
            Action.isOnNetworkConnectedFn]) hchg
      · exact absurd (by simp [_onNetworkStateChangeCallback, h4, h5]) hchg
    · exact absurd (by simp [_onNetworkStateChangeCallback, h1, h4]) hchg

/-- The callback calls the disconnect hook only for a disabled event of the type in
`connectedNetwork`. -/
theorem callback_disconnected_hook (env : Env) (s : State) (networkType : Nat)
    (state : AwsIotNetworkState_t)
    (hchg : (_onNetworkStateChangeCallback env networkType state s).trace.filter
        Action.isOnNetworkDisconnectedFn ≠ s.trace.filter Action.isOnNetworkDisconnectedFn) :
    state = AwsIotNetworkState_t.eNetworkStateDisabled ∧
    networkType = s.ctx.connectedNetwork := by
  by_cases h1 : state = AwsIotNetworkState_t.eNetworkStateEnabled
  · by_cases h2 : s.ctx.connectedNetwork = env.AWSIOT_NETWORK_TYPE_NONE
    · by_cases h3 : s.ctx.onNetworkConnectedFn = none
      · exact absurd (by simp [_onNetworkStateChangeCallback, h1, h2, h3, List.filter_append,
          Action.isOnNetworkDisconnectedFn]) hchg
      · exact absurd (by simp [_onNetworkStateChangeCallback, h1, h2, h3, List.filter_append,
          Action.isOnNetworkDisconnectedFn]) hchg
    · exact absurd (by simp [_onNetworkStateChangeCallback, h1, h2]) hchg
  · by_cases h4 : state = AwsIotNetworkState_t.eNetworkStateDisabled
    · by_cases h5 : s.ctx.connectedNetwork = networkType
      · exact ⟨h4, h5.symm⟩
      · exact absurd (by simp [_onNetworkStateChangeCallback, h4, h5]) hchg
    · exact absurd (by simp [_onNetworkStateChangeCallback, h1, h4]) hchg

/-- C9, as stated, fails: the task is blocked in the wait, the demo entry point has not
been called, a Wi-Fi enabled event is delivered, and the callback calls the connect
hook of the context. -/
theorem hooks_after_demo_start_counterexample :
    (exec nothingConnectedEnv
      (initialState nothingConnectedEnv (mqttBleEchoDemoContext nothingConnectedEnv))
      [Move.flow, Move.flow, Move.flow]).pc = Pc.waiting ∧
    (exec nothingConnectedEnv
      (initialState nothingConnectedEnv (mqttBleEchoDemoContext nothingConnectedEnv))
      [Move.flow, Move.flow, Move.flow,
       Move.event 1 AwsIotNetworkState_t.eNetworkStateEnabled]).pc = Pc.waiting ∧
    (exec nothingConnectedEnv
      (initialState nothingConnectedEnv (mqttBleEchoDemoContext nothingConnectedEnv))
      [Move.flow, Move.flow, Move.flow,
       Move.event 1 AwsIotNetworkState_t.eNetworkStateEnabled]).trace =
      [Action.semaphoreCreate 0 1, Action.subscribeForStateChange 3,
       Action.getConnectedNetworks, Action.semaphorePost, Action.getNetworkInterface 1,
       Action.onNetworkConnectedFn true "thing" 8883 none (some 101)] := by
  decide

/-- C9, amended. In every state reachable by blocks of `_runDemoTask` interleaved with
arbitrary events, from a context whose `connectedNetwork` is `NONE`: a move that calls
the connect hook is an enabled event delivered while `connectedNetwork` is `NONE` and a
connect hook is registered, and every such event calls it, whether or not the demo
entry point has been called; a move that calls the disconnect hook is a disabled event
of the type in `connectedNetwork`, which, when it is not `NONE`, is the type that
`_runDemoTask` has committed. No block of `_runDemoTask` calls a hook. -/
theorem hooks_called_by_events (env : Env) (ctx : _demoContext_t) (ms : List Move)
    (h0 : ctx.connectedNetwork = env.AWSIOT_NETWORK_TYPE_NONE) (m : Move) :
    ((step env (exec env (initialState env ctx) ms) m).trace.filter Action.isOnNetworkConnectedFn
        ≠ (exec env (initialState env ctx) ms).trace.filter Action.isOnNetworkConnectedFn →
      ∃ networkType : Nat,
        m = Move.event networkType AwsIotNetworkState_t.eNetworkStateEnabled ∧
        (exec env (initialState env ctx) ms).ctx.connectedNetwork
          = env.AWSIOT_NETWORK_TYPE_NONE ∧
        (exec env (initialState env ctx) ms).ctx.onNetworkConnectedFn ≠ none) ∧
    (∀ networkType : Nat,
      (exec env (initialState env ctx) ms).ctx.connectedNetwork = env.AWSIOT_NETWORK_TYPE_NONE →
      (exec env (initialState env ctx) ms).ctx.onNetworkConnectedFn ≠ none →
      (step env (exec env (initialState env ctx) ms)
        (Move.event networkType AwsIotNetworkState_t.eNetworkStateEnabled)).trace =
        (exec env (initialState env ctx) ms).trace ++
          [Action.semaphorePost, Action.getNetworkInterface networkType,
           Action.onNetworkConnectedFn (decide (networkType ≠ env.AWSIOT_NETWORK_TYPE_BLE))
             env.clientcredentialIOT_THING_NAME env.port
             (if env.port ≠ 443 then none else env.pAlpnProtos)
             (some (env.getNetworkInterface networkType))]) ∧
    ((step env (exec env (initialState env ctx) ms) m).trace.filter
          Action.isOnNetworkDisconnectedFn
        ≠ (exec env (initialState env ctx) ms).trace.filter Action.isOnNetworkDisconnectedFn →
      m = Move.event (exec env (initialState env ctx) ms).ctx.connectedNetwork
            AwsIotNetworkState_t.eNetworkStateDisabled ∧
      ((exec env (initialState env ctx) ms).ctx.connectedNetwork
          ≠ env.AWSIOT_NETWORK_TYPE_NONE →
        (exec env (initialState env ctx) ms).trace.filter Action.isCommit =
          [Action.commit (exec env (initialState env ctx) ms).ctx.connectedNetwork])) := by
  have hcn : (exec env (initialState env ctx) ms).ctx.connectedNetwork
        ≠ env.AWSIOT_NETWORK_TYPE_NONE →
      (exec env (initialState env ctx) ms).trace.filter Action.isCommit =
        [Action.commit (exec env (initialState env ctx) ms).ctx.connectedNetwork] := by
    intro hne
    rcases (ctxInv_exec env ctx ms h0).2 with h | ⟨h, _⟩
    · exact absurd h hne
    · exact h
  generalize exec env (initialState env ctx) ms = s at hcn ⊢
  refine ⟨?_, ?_, ?_⟩
  · intro hchg
    cases m with
    | flow =>
      exfalso
      apply hchg
      simp only [step]
      cases hs : flowStep env s with
      | none => rfl
      | some s' => exact (flowStep_hooks env s s' hs).1
    | event networkType state =>
      simp only [step] at hchg
      obtain ⟨h1, h2, h3⟩ := callback_connected_hook env s networkType state hchg
      exact ⟨networkType, by rw [h1], h2, h3⟩
  · intro networkType hnone hhook
    simp [step, _onNetworkStateChangeCallback, hnone, hhook]
  · intro hchg
    cases m with
    | flow =>
      exfalso
      apply hchg
      simp only [step]
      cases hs : flowStep env s with
      | none => rfl
      | some s' => exact (flowStep_hooks env s s' hs).2
    | event networkType state =>
      simp only [step] at hchg
      obtain ⟨h1, h2⟩ := callback_disconnected_hook env s networkType state hchg
      rw [h1, h2]
      exact ⟨rfl, hcn⟩

/-- C9, amended, witness: the enabled event delivered while the task waits calls the
connect hook. -/
theorem hooks_called_by_events_witness :
    (mqttBleEchoDemoContext nothingConnectedEnv).connectedNetwork
      = nothingConnectedEnv.AWSIOT_NETWORK_TYPE_NONE ∧
    (step nothingConnectedEnv
      (exec nothingConnectedEnv
        (initialState nothingConnectedEnv (mqttBleEchoDemoContext nothingConnectedEnv))
        [Move.flow, Move.flow, Move.flow])
      (Move.event 1 AwsIotNetworkState_t.eNetworkStateEnabled)).trace =
      [Action.semaphoreCreate 0 1, Action.subscribeForStateChange 3,
       Action.getConnectedNetworks, Action.semaphorePost, Action.getNetworkInterface 1,
       Action.onNetworkConnectedFn true "thing" 8883 none (some 101)] :=
  ⟨by decide,
   ((hooks_called_by_events nothingConnectedEnv (mqttBleEchoDemoContext nothingConnectedEnv)
      [Move.flow, Move.flow, Move.flow] (by decide)
      (Move.event 1 AwsIotNetworkState_t.eNetworkStateEnabled)).2.1 1
      (by decide) (by decide)).trans (by decide)⟩

/-- When the first query finds a network, every block of `_runDemoTask` can run and
leads to the next one: the task is never blocked. -/
theorem flowStep_progress (env : Env) (ctx0 : _demoContext_t) (s : State)
    (h : FlowInv env ctx0 s)
    (hfirst : firstAvailable env ctx0 ≠ env.AWSIOT_NETWORK_TYPE_NONE)
    (hpc : s.pc ≠ Pc.terminated) :
    ∃ s' : State, flowStep env s = some s' ∧ s'.pc.rank = s.pc.rank + 1 := by
  obtain ⟨hty, _, _, _, _, hat⟩ := h
  unfold flowStep
  split
  · next h1 => exact ⟨_, rfl, by rw [h1]; rfl⟩
  · next h1 =>
    refine ⟨_, rfl, ?_⟩
    rw [h1]; unfold subscribeBlock; dsimp only; split_ifs <;> rfl
  · next h1 =>
    refine ⟨_, rfl, ?_⟩
    rw [h1] at hat ⊢
    unfold queryBlock
    dsimp only
    rw [hty]
    split_ifs with h2 h3
    · exact absurd h3 hfirst
    · rfl
    · rfl
  · next h1 =>
    rw [h1] at hat
    exact absurd hat.2.2.2.1 hfirst
  · next h1 =>
    refine ⟨_, rfl, ?_⟩
    rw [h1]; unfold resolveBlock; split_ifs <;> rfl
  · next h1 =>
    refine ⟨_, rfl, ?_⟩
    rw [h1]; unfold runBlock; split_ifs <;> rfl
  · next h1 =>
    refine ⟨_, rfl, ?_⟩
    rw [h1]; unfold unsubscribeBlock; split_ifs <;> rfl
  · next h1 =>
    refine ⟨_, rfl, ?_⟩
    rw [h1]; unfold destroyBlock; split_ifs <;> rfl
  · next h1 => exact ⟨_, rfl, by rw [h1]; rfl⟩
  · next h1 => exact absurd h1 hpc

/-- When the first query finds a network, `_runDemoTask` run alone reaches its end as
soon as the fuel covers the blocks that remain. -/
theorem runDemoTask_terminates (env : Env) (ctx0 : _demoContext_t) (fuel : Nat) :
    ∀ s : State, FlowInv env ctx0 s →
      firstAvailable env ctx0 ≠ env.AWSIOT_NETWORK_TYPE_NONE →
      8 ≤ s.pc.rank + fuel → (_runDemoTask env fuel s).pc = Pc.terminated := by
  induction fuel with
  | zero =>
    intro s _ _ hr
    have h8 : 8 ≤ s.pc.rank := by omega
    unfold _runDemoTask
    revert h8
    cases s.pc <;> simp [Pc.rank]
  | succ n ih =>
    intro s h hfirst hr
    by_cases hpc : s.pc = Pc.terminated
    · unfold _runDemoTask
      have : flowStep env s = none := by unfold flowStep; rw [hpc]
      rw [this]
      exact hpc
    · obtain ⟨s', hs, hrank⟩ := flowStep_progress env ctx0 s h hfirst hpc
      unfold _runDemoTask
      rw [hs]
      exact ih s' (flowInv_flowStep env ctx0 s s' h hs) hfirst (by omega)

/-- C10. Skip-wait path. When the semaphore is created, the subscription succeeds and
the first query of the connected networks, restricted to the acceptable types, is not
`NONE`: under every interleaving with the callback the task is never in the wait and
never completes a wait, and from the block of lines 217-248 on `availableNetworkTypes`
is the result of that first query; and `_runDemoTask`, run alone, reaches its end
within nine steps. With `WIFI` the acceptable type and `WIFI` connected, and a subscription
handle that is not the initializer, the run is: create the semaphore, subscribe, query,
commit `WIFI`, get the Wi-Fi interface, call the demo once with `awsIotMqttMode = true`
and that interface, remove the subscription, destroy the semaphore, delete the task. -/
theorem skip_wait_path (env : Env) (ctx : _demoContext_t)
    (hc : env.semaphoreCreated = true) (hsub : env.subscribed = true)
    (hfirst : env.connectedAtStart &&& ctx.networkTypes ≠ env.AWSIOT_NETWORK_TYPE_NONE) :
    (∀ ms : List Move,
      (exec env (initialState env ctx) ms).pc ≠ Pc.waiting ∧
      (exec env (initialState env ctx) ms).trace.filter Action.isSemaphoreWait = [] ∧
      ((exec env (initialState env ctx) ms).pc ≠ Pc.create →
        (exec env (initialState env ctx) ms).pc ≠ Pc.subscribe →
        (exec env (initialState env ctx) ms).pc ≠ Pc.query →
        (exec env (initialState env ctx) ms).availableNetworkTypes
          = env.connectedAtStart &&& ctx.networkTypes)) ∧
    (_runDemoTask env 9 (initialState env ctx)).pc = Pc.terminated ∧
    (ctx.networkTypes = env.AWSIOT_NETWORK_TYPE_WIFI →
      env.connectedAtStart = env.AWSIOT_NETWORK_TYPE_WIFI →
      env.subscriptionHandle ≠ env.IOT_NETWORK_MANAGER_SUBSCRIPTION_INITIALIZER →
      (_runDemoTask env 9 (initialState env ctx)).trace =
        [Action.semaphoreCreate 0 1,
         Action.subscribeForStateChange env.AWSIOT_NETWORK_TYPE_WIFI,
         Action.getConnectedNetworks,
         Action.commit env.AWSIOT_NETWORK_TYPE_WIFI,
         Action.getNetworkInterface env.AWSIOT_NETWORK_TYPE_WIFI,
         Action.demoFn true env.clientcredentialIOT_THING_NAME env.port
           (if env.port ≠ 443 then none else env.pAlpnProtos)
           (some (env.getNetworkInterface env.AWSIOT_NETWORK_TYPE_WIFI)),
         Action.logInfo,
         Action.removeSubscription env.subscriptionHandle,
         Action.semaphoreDestroy,
         Action.taskDelete] ∧
      (_runDemoTask env 9 (initialState env ctx)).ctx.networkSemaphore = none) := by
  refine ⟨?_, ?_, ?_⟩
  · intro ms
    obtain ⟨_, _, _, _, hw, hat⟩ := flowInv_exec env ctx ms
    generalize exec env (initialState env ctx) ms = s at hw hat ⊢
    have hfirst' : firstAvailable env ctx ≠ env.AWSIOT_NETWORK_TYPE_NONE := hfirst
    refine ⟨?_, hw hfirst', ?_⟩
    · intro hpc
      rw [hpc] at hat
      exact hfirst' hat.2.2.2.1
    · intro h1 h2 h3
      have hq : Queried env ctx s := by
        cases hpc : s.pc <;> rw [hpc] at hat <;> simp only [FlowAt] at hat
        · exact absurd hpc h1
        · exact absurd hpc h2
        · exact absurd hpc h3
        · exact absurd hat.2.2.2.1 hfirst'
        · exact hat.2.1 (hat.1.mpr ⟨hc, hsub⟩)
        all_goals exact hat.1 hc hsub
      rcases hq with ⟨_, h⟩ | ⟨h, _⟩
      · exact h
      · exact absurd h hfirst'
  · exact runDemoTask_terminates env ctx 9 (initialState env ctx) (flowInv_initialState env ctx)
      hfirst (by simp [initialState, Pc.rank])
  · intro hty hconn hh
    obtain ⟨NONE, WIFI, BLE, INIT, name, port, alpn, created, subscribed, handle, c1, c2, gi,
      status⟩ := env
    obtain ⟨types, cn, demoFn, onC, onD, sem⟩ := ctx
    simp only at hc hsub hfirst hty hconn hh
    subst hc hsub hty hconn
    have hww : c1 &&& c1 = c1 := Nat.and_self _
    rw [hww] at hfirst
    simp [_runDemoTask, flowStep, initialState, createBlock, subscribeBlock, queryBlock,
      resolveBlock, runBlock, unsubscribeBlock, destroyBlock, deleteBlock, hww, hfirst, hh]

/-- C10, witness: scenario A, Wi-Fi acceptable and Wi-Fi connected. -/
theorem skip_wait_path_witness :
    sampleEnv.semaphoreCreated = true ∧ sampleEnv.subscribed = true ∧
    sampleEnv.connectedAtStart &&& (mqttDemoContext sampleEnv).networkTypes
      ≠ sampleEnv.AWSIOT_NETWORK_TYPE_NONE ∧
    (_runDemoTask sampleEnv 9 (initialState sampleEnv (mqttDemoContext sampleEnv))).pc
      = Pc.terminated ∧
    (_runDemoTask sampleEnv 9 (initialState sampleEnv (mqttDemoContext sampleEnv))).trace =
      [Action.semaphoreCreate 0 1, Action.subscribeForStateChange 1,
       Action.getConnectedNetworks, Action.commit 1, Action.getNetworkInterface 1,
       Action.demoFn true "thing" 8883 none (some 101), Action.logInfo,
       Action.removeSubscription 1, Action.semaphoreDestroy, Action.taskDelete] :=
  ⟨by decide, by decide, by decide,
   (skip_wait_path sampleEnv (mqttDemoContext sampleEnv) (by decide) (by decide)
     (by decide)).2.1,
   ((skip_wait_path sampleEnv (mqttDemoContext sampleEnv) (by decide) (by decide)
     (by decide)).2.2 (by decide) (by decide) (by decide)).1.trans (by decide)⟩

/-! Theorems about the callback alone and about the return status of the demo. -/

/-- C13. The status the demo entry point returns does not influence anything: two runs
of `_runDemoTask` on the same context, under the same interleaving with the callback
and with environments that differ only in that status, reach the same state after every
sequence of moves, and so have the same trace of actions (removal of the subscription,
destruction of the semaphore, deletion of the task) and the same final context; the
same holds for the task run alone with any fuel. -/
theorem demo_status_ignored (env : Env) (status1 status2 : Int) (ctx : _demoContext_t)
    (ms : List Move) (fuel : Nat) :
    exec { env with demoStatus := status1 }
        (initialState { env with demoStatus := status1 } ctx) ms =
      exec { env with demoStatus := status2 }
        (initialState { env with demoStatus := status2 } ctx) ms ∧
    _runDemoTask { env with demoStatus := status1 } fuel
        (initialState { env with demoStatus := status1 } ctx) =
      _runDemoTask { env with demoStatus := status2 } fuel
        (initialState { env with demoStatus := status2 } ctx) := by
  have hflow : ∀ (x : Int) (s : State), flowStep { env with demoStatus := x } s = flowStep env s := by
    intro x s
    rfl
  have hstep : ∀ x : Int, step { env with demoStatus := x } = step env := by
    intro x
    funext s m
    cases m with
    | flow => simp only [step, hflow]
    | event networkType state => rfl
  have hrun : ∀ (x : Int) (n : Nat) (s : State),
      _runDemoTask { env with demoStatus := x } n s = _runDemoTask env n s := by
    intro x n
    induction n with
    | zero => intro s; rfl
    | succ n ih =>
      intro s
      simp only [_runDemoTask, hflow]
      cases flowStep env s with
      | none => rfl
      | some s1 => exact ih s1
  constructor
  · simp only [exec, hstep]
    rfl
  · rw [hrun status1, hrun status2]
    rfl

/-- C14, as stated, fails: the echo demo has committed Wi-Fi and has a connect hook
registered; a BLE enabled event is delivered; the callback returns the state as it was
and the connect hook is not called. -/
theorem enabled_event_hook_counterexample :
    wifiCommittedState.ctx.onNetworkConnectedFn
      = some ExternFn.BleMqttEchoDemoOnNetworkConnected ∧
    wifiCommittedState.ctx.connectedNetwork = 1 ∧
    _onNetworkStateChangeCallback sampleEnv 2 AwsIotNetworkState_t.eNetworkStateEnabled
      wifiCommittedState = wifiCommittedState ∧
    (_onNetworkStateChangeCallback sampleEnv 2 AwsIotNetworkState_t.eNetworkStateEnabled
      wifiCommittedState).trace.filter Action.isOnNetworkConnectedFn = [] := by
  decide

/-- C14, amended. For every enabled event delivered while `connectedNetwork` is `NONE`
in a context that has a connect hook registered, the callback posts the semaphore and
calls the connect hook exactly once, with `awsIotMqttMode` true unless the type of the
event is `BLE`, with the interface the manager returns for that type, and with the ALPN
list of the initializer when the port is 443 and `NULL` otherwise, so that a configured
list is cleared if and only if the port is not 443; nothing else in the state changes. -/
theorem enabled_event_hook (env : Env) (s : State) (networkType : Nat)
    (hnone : s.ctx.connectedNetwork = env.AWSIOT_NETWORK_TYPE_NONE)
    (hhook : s.ctx.onNetworkConnectedFn ≠ none) :
    _onNetworkStateChangeCallback env networkType AwsIotNetworkState_t.eNetworkStateEnabled s =
      { s with
        ctx := { s.ctx with networkSemaphore := IotSemaphore_Post s.ctx.networkSemaphore }
        trace := s.trace ++
          [Action.semaphorePost, Action.getNetworkInterface networkType,
           Action.onNetworkConnectedFn (decide (networkType ≠ env.AWSIOT_NETWORK_TYPE_BLE))
             env.clientcredentialIOT_THING_NAME env.port
             (if env.port ≠ 443 then none else env.pAlpnProtos)
             (some (env.getNetworkInterface networkType))] } ∧
    ((_onNetworkStateChangeCallback env networkType
        AwsIotNetworkState_t.eNetworkStateEnabled s).trace.filter
        Action.isOnNetworkConnectedFn).length
      = (s.trace.filter Action.isOnNetworkConnectedFn).length + 1 ∧
    (decide (networkType ≠ env.AWSIOT_NETWORK_TYPE_BLE) = false
      ↔ networkType = env.AWSIOT_NETWORK_TYPE_BLE) ∧
    (env.pAlpnProtos ≠ none →
      ((if env.port ≠ 443 then none else env.pAlpnProtos) = none ↔ env.port ≠ 443)) := by
  refine ⟨?_, ?_, ?_, ?_⟩
  · simp [_onNetworkStateChangeCallback, hnone, hhook]
  · simp [_onNetworkStateChangeCallback, hnone, hhook, List.filter_append,
      Action.isOnNetworkConnectedFn]
  · simp
  · intro hcfg
    by_cases hp : env.port = 443
    · simp [hp, hcfg]
    · simp [hp]

/-- C14, amended, witness: the echo demo waits for its first network and BLE is
enabled: the connect hook is called with `awsIotMqttMode = false`. -/
theorem enabled_event_hook_witness :
    (_onNetworkStateChangeCallback nothingConnectedEnv 2
      AwsIotNetworkState_t.eNetworkStateEnabled
      (exec nothingConnectedEnv
        (initialState nothingConnectedEnv (mqttBleEchoDemoContext nothingConnectedEnv))
        [Move.flow, Move.flow, Move.flow])).trace =
      [Action.semaphoreCreate 0 1, Action.subscribeForStateChange 3,
       Action.getConnectedNetworks, Action.semaphorePost, Action.getNetworkInterface 2,
       Action.onNetworkConnectedFn false "thing" 8883 none (some 102)] :=
  (congrArg State.trace
    (enabled_event_hook nothingConnectedEnv
      (exec nothingConnectedEnv
        (initialState nothingConnectedEnv (mqttBleEchoDemoContext nothingConnectedEnv))
        [Move.flow, Move.flow, Move.flow]) 2 (by decide) (by decide)).1).trans (by decide)

/-- C17. Nothing changes the acceptable types or widens the committed type. For every
event, of any type and any state, the callback leaves `networkTypes`, `demoFn` and the
two hook fields of the context as they were, and `connectedNetwork` afterwards is its
previous value or `NONE`; no block of `_runDemoTask` writes `networkTypes`; and in every
state reachable from the start of `_runDemoTask` on `ctx`, under any interleaving,
`networkTypes` is that of `ctx`. -/
theorem acceptable_types_constant (env : Env) (s : State) (networkType : Nat)
    (state : AwsIotNetworkState_t) (ctx : _demoContext_t) (ms : List Move) :
    (_onNetworkStateChangeCallback env networkType state s).ctx.networkTypes
      = s.ctx.networkTypes ∧
    (_onNetworkStateChangeCallback env networkType state s).ctx.demoFn = s.ctx.demoFn ∧
    (_onNetworkStateChangeCallback env networkType state s).ctx.onNetworkConnectedFn
      = s.ctx.onNetworkConnectedFn ∧
    (_onNetworkStateChangeCallback env networkType state s).ctx.onNetworkDisconnectedFn
      = s.ctx.onNetworkDisconnectedFn ∧
    ((_onNetworkStateChangeCallback env networkType state s).ctx.connectedNetwork
        = s.ctx.connectedNetwork ∨
      (_onNetworkStateChangeCallback env networkType state s).ctx.connectedNetwork
        = env.AWSIOT_NETWORK_TYPE_NONE) ∧
    ((flowStep env s).getD s).ctx.networkTypes = s.ctx.networkTypes ∧
    (exec env (initialState env ctx) ms).ctx.networkTypes = ctx.networkTypes := by
  obtain ⟨_, _, _, _, _, _, _, f8, f9, f10, f11, _⟩ := callback_frame env s networkType state
  refine ⟨f8, f9, f10, f11, ?_, ?_, (flowInv_exec env ctx ms).1⟩
  · unfold _onNetworkStateChangeCallback
    dsimp only
    split_ifs <;> simp
  · unfold flowStep
    split
    · simp only [Option.getD_some]
      unfold createBlock
      by_cases hc : env.semaphoreCreated = true <;> simp [hc]
    · simp only [Option.getD_some]; unfold subscribeBlock; dsimp only; split_ifs <;> rfl
    · simp only [Option.getD_some]; unfold queryBlock; dsimp only; split_ifs <;> rfl
    · unfold _blockForAvailableNetwork
      dsimp only
      split <;> rfl
    · simp only [Option.getD_some]; unfold resolveBlock; split_ifs <;> rfl
    · simp only [Option.getD_some]; unfold runBlock; split_ifs <;> rfl
    · simp only [Option.getD_some]; unfold unsubscribeBlock; split_ifs <;> rfl
    · simp only [Option.getD_some]; unfold destroyBlock; split_ifs <;> rfl
    · rfl
    · rfl

/-- C18. An enabled event delivered while a network is committed (`connectedNetwork`
is not `NONE`) is a complete no-op, for every network type: the callback returns the
state as it was, so the semaphore is not posted, the connect hook is not called even
when one is registered, and the context is unchanged. -/
theorem enabled_event_while_committed (env : Env) (s : State) (networkType : Nat)
    (hcommitted : s.ctx.connectedNetwork ≠ env.AWSIOT_NETWORK_TYPE_NONE) :
    _onNetworkStateChangeCallback env networkType
      AwsIotNetworkState_t.eNetworkStateEnabled s = s := by
  unfold _onNetworkStateChangeCallback
  rw [if_pos rfl, if_neg hcommitted]

/-- C18, witness: the echo demo has committed Wi-Fi and BLE is enabled. -/
theorem enabled_event_while_committed_witness :
    wifiCommittedState.ctx.connectedNetwork ≠ sampleEnv.AWSIOT_NETWORK_TYPE_NONE ∧
    _onNetworkStateChangeCallback sampleEnv 2 AwsIotNetworkState_t.eNetworkStateEnabled
      wifiCommittedState = wifiCommittedState :=
  ⟨by decide, enabled_event_while_committed sampleEnv wifiCommittedState 2 (by decide)⟩

/-! The semaphore. -/

theorem semOk_post (sem : Option IotSemaphore_t) (waits posts : Nat)
    (h : SemOk sem waits posts) : SemOk (IotSemaphore_Post sem) waits (posts + 1) := by
  cases sem with
  | none => simp only [SemOk, IotSemaphore_Post] at h ⊢; omega
  | some m =>
    simp only [SemOk] at h
    unfold IotSemaphore_Post
    dsimp only
    split_ifs with hlt
    · simp only [SemOk]; omega
    · simp only [SemOk]; omega

/-- The callback completes no wait; it either leaves the semaphore and the posts as
they were, or posts once, which happens only for an enabled event delivered while
`connectedNetwork` is `NONE`. -/
theorem callback_semaphore (env : Env) (s : State) (networkType : Nat)
    (state : AwsIotNetworkState_t) :
    (_onNetworkStateChangeCallback env networkType state s).trace.filter Action.isSemaphoreWait
      = s.trace.filter Action.isSemaphoreWait ∧
    (((_onNetworkStateChangeCallback env networkType state s).ctx.networkSemaphore
          = s.ctx.networkSemaphore ∧
        (_onNetworkStateChangeCallback env networkType state s).trace.filter
          Action.isSemaphorePost = s.trace.filter Action.isSemaphorePost) ∨
      ((_onNetworkStateChangeCallback env networkType state s).ctx.networkSemaphore
          = IotSemaphore_Post s.ctx.networkSemaphore ∧
        (_onNetworkStateChangeCallback env networkType state s).trace.filter
          Action.isSemaphorePost = s.trace.filter Action.isSemaphorePost ++ [Action.semaphorePost] ∧
        state = AwsIotNetworkState_t.eNetworkStateEnabled ∧
        s.ctx.connectedNetwork = env.AWSIOT_NETWORK_TYPE_NONE)) := by
  unfold _onNetworkStateChangeCallback
  dsimp only
  split_ifs <;>
    simp_all [List.filter_append, Action.isSemaphoreWait, Action.isSemaphorePost]

theorem semInv_initialState (env : Env) (ctx0 : _demoContext_t) :
    SemInv env ctx0 (initialState env ctx0) := by
  simp [SemInv, initialState, Pc.rank]

theorem semInv_callback (env : Env) (ctx0 : _demoContext_t) (s : State)
    (networkType : Nat) (state : AwsIotNetworkState_t) (h : SemInv env ctx0 s) :
    SemInv env ctx0 (_onNetworkStateChangeCallback env networkType state s) := by
  obtain ⟨hpc, _⟩ := callback_frame env s networkType state
  obtain ⟨hw, hp⟩ := callback_semaphore env s networkType state
  obtain ⟨h1, h2, h3⟩ := h
  refine ⟨?_, ?_, ?_⟩
  · rw [hpc, hw]; exact h1
  · rw [hpc, hw]; exact h2
  · rw [hpc, hw]
    intro hne hc
    rcases hp with ⟨hs, hp⟩ | ⟨hs, hp, _, _⟩
    · rw [hs, hp]; exact h3 hne hc
    · rw [hs, hp, List.length_append]
      exact semOk_post _ _ _ (h3 hne hc)

theorem semInv_flowStep (env : Env) (ctx0 : _demoContext_t) (s s' : State)
    (hf : FlowInv env ctx0 s) (h : SemInv env ctx0 s) (hs : flowStep env s = some s') :
    SemInv env ctx0 s' := by
  unfold flowStep at hs
  split at hs
  · next hpc =>
    cases hs
    obtain ⟨pc, ctx, alpn, iface, av, ret, mode, sub, tr⟩ := s
    simp only at hpc
    subst hpc
    simp only [SemInv, Pc.rank] at h
    have hw := h.1 (by omega)
    unfold createBlock
    by_cases hc : env.semaphoreCreated = true <;>
      simp [SemInv, SemOk, Pc.rank, List.filter_append, Action.isSemaphoreWait,
        Action.isSemaphorePost, hc, hw]
  · next hpc =>
    cases hs
    obtain ⟨pc, ctx, alpn, iface, av, ret, mode, sub, tr⟩ := s
    simp only at hpc
    subst hpc
    simp only [SemInv, Pc.rank] at h
    have hw := h.1 (by omega)
    have hok := h.2.2 (by simp)
    unfold subscribeBlock
    dsimp only
    split_ifs <;>
      simp [SemInv, Pc.rank, List.filter_append, Action.isSemaphoreWait,
        Action.isSemaphorePost, hw] <;>
      simpa [hw] using hok
  · next hpc =>
    cases hs
    obtain ⟨pc, ctx, alpn, iface, av, ret, mode, sub, tr⟩ := s
    simp only at hpc
    subst hpc
    simp only [SemInv, Pc.rank] at h
    have hw := h.1 (by omega)
    have hok := h.2.2 (by simp)
    obtain ⟨hty, _, _, _, _, hat⟩ := hf
    simp only [FlowAt] at hat hty
    unfold queryBlock
    dsimp only
    split_ifs with hret hav
    · simp [SemInv, Pc.rank, List.filter_append, Action.isSemaphoreWait,
        Action.isSemaphorePost, hw]
      simpa [hw] using hok
    · have hfirst : firstAvailable env ctx0 ≠ env.AWSIOT_NETWORK_TYPE_NONE := by
        unfold firstAvailable
        rw [← hty]
        exact hav
      simp [SemInv, Pc.rank, List.filter_append, Action.isSemaphoreWait,
        Action.isSemaphorePost, hw, hfirst]
      simpa [hw] using hok
    · have hno : ¬ (env.semaphoreCreated = true ∧ env.subscribed = true) :=
        fun hcs => hret (hat.1.mpr hcs)
      have hno' : ¬ (env.semaphoreCreated = true ∧ env.subscribed = true ∧
          firstAvailable env ctx0 = env.AWSIOT_NETWORK_TYPE_NONE) :=
        fun hcs => hno ⟨hcs.1, hcs.2.1⟩
      simp only [SemInv, Pc.rank, hw, if_neg hno']
      refine ⟨fun _ => trivial, fun _ => trivial, ?_⟩
      intro _ hc
      simpa [hw] using hok hc
  · next hpc =>
    obtain ⟨pc, ctx, alpn, iface, av, ret, mode, sub, tr⟩ := s
    simp only at hpc
    subst hpc
    simp only [SemInv, Pc.rank] at h
    have hw := h.1 (by omega)
    have hok := h.2.2 (by simp)
    obtain ⟨_, _, _, _, _, hat⟩ := hf
    simp only [FlowAt] at hat
    obtain ⟨_, hc, hsub, hfirst, _⟩ := hat
    have hok' := hok hc
    unfold _blockForAvailableNetwork at hs
    dsimp only at hs
    cases hsem : ctx.networkSemaphore with
    | none => rw [hsem] at hs; simp [IotSemaphore_Wait] at hs
    | some m =>
      rw [hsem] at hs hok'
      simp only [SemOk, hw, List.length_nil] at hok'
      unfold IotSemaphore_Wait at hs
      dsimp only at hs
      split_ifs at hs with hpos
      simp only [Option.some.injEq] at hs
      subst hs
      simp only [SemInv, Pc.rank, List.filter_append, hw, hc, hsub, hfirst, SemOk]
      refine ⟨fun hle => absurd hle (by omega), fun _ => ?_, fun _ _ => ?_⟩
      · simp [Action.isSemaphoreWait]
      · simp [Action.isSemaphoreWait, Action.isSemaphorePost]
        omega
  · next hpc =>
    cases hs
    obtain ⟨pc, ctx, alpn, iface, av, ret, mode, sub, tr⟩ := s
    simp only at hpc
    subst hpc
    simp only [SemInv, Pc.rank] at h
    have hw := h.2.1 (by omega)
    have hok := h.2.2 (by simp)
    unfold resolveBlock
    dsimp only
    split_ifs <;>
      simp only [SemInv, Pc.rank, List.filter_append] <;>
      refine ⟨fun hle => absurd hle (by omega), fun _ => ?_, fun _ hc => ?_⟩ <;>
      first
      | simpa [Action.isSemaphoreWait, Action.isSemaphorePost] using hw
      | simpa [Action.isSemaphoreWait, Action.isSemaphorePost] using hok hc
  · next hpc =>
    cases hs
    obtain ⟨pc, ctx, alpn, iface, av, ret, mode, sub, tr⟩ := s
    simp only at hpc
    subst hpc
    simp only [SemInv, Pc.rank] at h
    have hw := h.2.1 (by omega)
    have hok := h.2.2 (by simp)
    unfold runBlock
    dsimp only
    split_ifs <;>
      simp only [SemInv, Pc.rank, List.filter_append] <;>
      refine ⟨fun hle => absurd hle (by omega), fun _ => ?_, fun _ hc => ?_⟩ <;>
      first
      | simpa [Action.isSemaphoreWait, Action.isSemaphorePost] using hw
      | simpa [Action.isSemaphoreWait, Action.isSemaphorePost] using hok hc
  · next hpc =>
    cases hs
    obtain ⟨pc, ctx, alpn, iface, av, ret, mode, sub, tr⟩ := s
    simp only at hpc
    subst hpc
    simp only [SemInv, Pc.rank] at h
    have hw := h.2.1 (by omega)
    have hok := h.2.2 (by simp)
    unfold unsubscribeBlock
    dsimp only
    split_ifs <;>
      simp only [SemInv, Pc.rank, List.filter_append] <;>
      refine ⟨fun hle => absurd hle (by omega), fun _ => ?_, fun _ hc => ?_⟩ <;>
      first
      | simpa [Action.isSemaphoreWait, Action.isSemaphorePost] using hw
      | simpa [Action.isSemaphoreWait, Action.isSemaphorePost] using hok hc
  · next hpc =>
    cases hs
    obtain ⟨pc, ctx, alpn, iface, av, ret, mode, sub, tr⟩ := s
    simp only at hpc
    subst hpc
    simp only [SemInv, Pc.rank] at h
    have hw := h.2.1 (by omega)
    have hok := h.2.2 (by simp)
    unfold destroyBlock
    dsimp only
    split_ifs
    · simp only [SemInv, Pc.rank, List.filter_append]
      refine ⟨fun hle => absurd hle (by omega), fun _ => ?_, fun _ hc => ?_⟩
      · simpa [Action.isSemaphoreWait, Action.isSemaphorePost] using hw
      · have hok' := hok hc
        cases hsem : ctx.networkSemaphore with
        | none =>
          rw [hsem] at hok'
          simpa [SemOk, Action.isSemaphoreWait, Action.isSemaphorePost] using hok'
        | some m =>
          rw [hsem] at hok'
          simp only [SemOk] at hok'
          simp [SemOk, Action.isSemaphoreWait, Action.isSemaphorePost]
          omega
    · simp only [SemInv, Pc.rank]
      exact ⟨fun hle => absurd hle (by omega), fun _ => hw, fun _ hc => hok hc⟩
  · next hpc =>
    cases hs
    obtain ⟨pc, ctx, alpn, iface, av, ret, mode, sub, tr⟩ := s
    simp only at hpc
    subst hpc
    simp only [SemInv, Pc.rank] at h
    have hw := h.2.1 (by omega)
    have hok := h.2.2 (by simp)
    unfold deleteBlock
    simp only [SemInv, Pc.rank, List.filter_append]
    refine ⟨fun hle => absurd hle (by omega), fun _ => ?_, fun _ hc => ?_⟩
    · simpa [Action.isSemaphoreWait, Action.isSemaphorePost] using hw
    · simpa [Action.isSemaphoreWait, Action.isSemaphorePost] using hok hc
  · exact absurd hs (by simp)

theorem semInv_step (env : Env) (ctx0 : _demoContext_t) (s : State) (m : Move)
    (hf : FlowInv env ctx0 s) (h : SemInv env ctx0 s) : SemInv env ctx0 (step env s m) := by
  cases m with
  | flow =>
    unfold step
    cases hs : flowStep env s with
    | none => simpa using h
    | some s' => simpa using semInv_flowStep env ctx0 s s' hf h hs
  | event networkType state => exact semInv_callback env ctx0 s networkType state h

theorem semInv_exec_from (env : Env) (ctx0 : _demoContext_t) (ms : List Move) :
    ∀ s : State, FlowInv env ctx0 s → SemInv env ctx0 s → SemInv env ctx0 (exec env s ms) := by
  induction ms with
  | nil => intro s _ h; exact h
  | cons m ms ih =>
    intro s hf h
    exact ih (step env s m) (flowInv_step env ctx0 s m hf) (semInv_step env ctx0 s m hf h)

/-- Every state the task and the callback can reach from the start of `_runDemoTask`
satisfies `SemInv`. -/
theorem semInv_exec (env : Env) (ctx0 : _demoContext_t) (ms : List Move) :
    SemInv env ctx0 (exec env (initialState env ctx0) ms) :=
  semInv_exec_from env ctx0 ms _ (flowInv_initialState env ctx0) (semInv_initialState env ctx0)

/-- No block of `_runDemoTask` posts the semaphore. -/
theorem flowStep_posts (env : Env) (s s' : State) (hs : flowStep env s = some s') :
    s'.trace.filter Action.isSemaphorePost = s.trace.filter Action.isSemaphorePost := by
  unfold flowStep at hs
  split at hs
  · cases hs
    simp [createBlock, List.filter_append, Action.isSemaphorePost]
  · cases hs; unfold subscribeBlock; dsimp only
    split_ifs <;> simp [List.filter_append, Action.isSemaphorePost]
  · cases hs; unfold queryBlock; dsimp only
    split_ifs <;> simp [List.filter_append, Action.isSemaphorePost]
  · unfold _blockForAvailableNetwork at hs
    dsimp only at hs
    split at hs
    · exact absurd hs (by simp)
    · simp only [Option.some.injEq] at hs
      subst hs
      simp [List.filter_append, Action.isSemaphorePost]
  · cases hs; unfold resolveBlock
    split_ifs <;> simp [List.filter_append, Action.isSemaphorePost]
  · cases hs; unfold runBlock
    split_ifs <;> simp [List.filter_append, Action.isSemaphorePost]
  · cases hs; unfold unsubscribeBlock
    split_ifs <;> simp [List.filter_append, Action.isSemaphorePost]
  · cases hs; unfold destroyBlock
    split_ifs <;> simp [List.filter_append, Action.isSemaphorePost]
  · cases hs
    simp [deleteBlock, List.filter_append, Action.isSemaphorePost]
  · exact absurd hs (by simp)

theorem post_iterate (n : Nat) :
    Nat.iterate IotSemaphore_Post (n + 1) (some { count := 0, maxValue := 1 })
      = some { count := 1, maxValue := 1 } := by
  induction n with
  | zero => rfl
  | succ k ih =>
    rw [Function.iterate_succ_apply', ih]
    rfl

/-- C12. The semaphore of the context, created by `_runDemoTask` with initial count 0
and maximum count 1. Any number of posts, at least one, with no wait in between leaves
exactly one pending release: one wait then succeeds and a second one blocks. In every
state reachable by blocks of the task interleaved with arbitrary events, once the task
has created the semaphore its maximum count is 1 and its count is at most 1, and the
completed waits are not more than the posts. The wait of `_blockForAvailableNetwork`
completes only in a state whose trace already holds a post and in which the count is 1;
and a post is made only by an enabled event delivered while `connectedNetwork` is
`NONE`. -/
theorem gate_single_slot (env : Env) (ctx : _demoContext_t) (ms : List Move) (n : Nat) :
    (0 < n →
      Nat.iterate IotSemaphore_Post n (some { count := 0, maxValue := 1 })
        = some { count := 1, maxValue := 1 }) ∧
    IotSemaphore_Wait (some { count := 1, maxValue := 1 })
      = some (some { count := 0, maxValue := 1 }) ∧
    IotSemaphore_Wait (some { count := 0, maxValue := 1 }) = none ∧
    (env.semaphoreCreated = true → (exec env (initialState env ctx) ms).pc ≠ Pc.create →
      ∀ m : IotSemaphore_t, (exec env (initialState env ctx) ms).ctx.networkSemaphore = some m →
        m.maxValue = 1 ∧ m.count ≤ 1) ∧
    ((exec env (initialState env ctx) ms).trace.filter Action.isSemaphoreWait).length
      ≤ ((exec env (initialState env ctx) ms).trace.filter Action.isSemaphorePost).length ∧
    (∀ s' : State, (exec env (initialState env ctx) ms).pc = Pc.waiting →
      flowStep env (exec env (initialState env ctx) ms) = some s' →
      Action.semaphorePost ∈ (exec env (initialState env ctx) ms).trace ∧
      (exec env (initialState env ctx) ms).ctx.networkSemaphore
        = some { count := 1, maxValue := 1 } ∧
      s'.ctx.networkSemaphore = some { count := 0, maxValue := 1 }) ∧
    (∀ mv : Move,
      (step env (exec env (initialState env ctx) ms) mv).trace.filter Action.isSemaphorePost
        ≠ (exec env (initialState env ctx) ms).trace.filter Action.isSemaphorePost →
      ∃ networkType : Nat,
        mv = Move.event networkType AwsIotNetworkState_t.eNetworkStateEnabled ∧
        (exec env (initialState env ctx) ms).ctx.connectedNetwork
          = env.AWSIOT_NETWORK_TYPE_NONE) := by
  have hf := flowInv_exec env ctx ms
  have hsem := semInv_exec env ctx ms
  generalize exec env (initialState env ctx) ms = s at hf hsem ⊢
  obtain ⟨h1, h2, h3⟩ := hsem
  refine ⟨?_, rfl, rfl, ?_, ?_, ?_, ?_⟩
  · intro hn
    obtain ⟨k, rfl⟩ : ∃ k, n = k + 1 := ⟨n - 1, by omega⟩
    exact post_iterate k
  · intro hc hpc m hm
    have hok := h3 hpc hc
    rw [hm] at hok
    exact ⟨hok.1, hok.2.1⟩
  · by_cases hc : env.semaphoreCreated = true
    · by_cases hpc : s.pc = Pc.create
      · rw [h1 (by rw [hpc]; simp [Pc.rank])]
        simp
      · have hok := h3 hpc hc
        cases hsm : s.ctx.networkSemaphore with
        | none => rw [hsm] at hok; exact hok
        | some m => rw [hsm] at hok; simp only [SemOk] at hok; omega
    · by_cases hr : s.pc.rank ≤ 2
      · rw [h1 hr]; simp
      · rw [h2 (by omega), if_neg (fun hcs => hc hcs.1)]
        simp
  · intro s' hpc hs
    obtain ⟨_, _, _, _, _, hat⟩ := hf
    rw [hpc] at hat
    have hc : env.semaphoreCreated = true := hat.2.1
    have hok := h3 (by rw [hpc]; simp) hc
    have hw := h1 (by rw [hpc]; simp [Pc.rank])
    unfold flowStep at hs
    rw [hpc] at hs
    simp only at hs
    unfold _blockForAvailableNetwork at hs
    dsimp only at hs
    cases hsm : s.ctx.networkSemaphore with
    | none => rw [hsm] at hs; simp [IotSemaphore_Wait] at hs
    | some m =>
      rw [hsm] at hs hok
      simp only [SemOk, hw, List.length_nil] at hok
      unfold IotSemaphore_Wait at hs
      dsimp only at hs
      split_ifs at hs with hpos
      simp only [Option.some.injEq] at hs
      subst hs
      obtain ⟨hmax, hle, hposts⟩ := hok
      have hcount : m.count = 1 := by omega
      refine ⟨?_, ?_, ?_⟩
      · have hlen : 0 < (s.trace.filter Action.isSemaphorePost).length := by omega
        obtain ⟨a, ha⟩ := List.exists_mem_of_length_pos hlen
        obtain ⟨hmem, hpost⟩ := List.mem_filter.mp ha
        cases a <;> simp [Action.isSemaphorePost] at hpost
        exact hmem
      · cases m
        simp only at hmax hcount
        subst hmax hcount
        rfl
      · cases m
        simp only at hmax hcount
        subst hmax hcount
        rfl
  · intro mv hchg
    cases mv with
    | flow =>
      exfalso
      apply hchg
      simp only [step]
      cases hs : flowStep env s with
      | none => rfl
      | some s' => exact flowStep_posts env s s' hs
    | event networkType state =>
      simp only [step] at hchg
      rcases (callback_semaphore env s networkType state).2 with ⟨_, hsame⟩ | ⟨_, _, hst, hnone⟩
      · exact absurd hsame hchg
      · exact ⟨networkType, by rw [hst], hnone⟩

/-- C12, witness: three enabled events in a row while the task waits leave the count
at 1. -/
theorem gate_single_slot_witness :
    (0 : Nat) < 3 ∧
    Nat.iterate IotSemaphore_Post 3 (some { count := 0, maxValue := 1 })
      = some { count := 1, maxValue := 1 } :=
  ⟨by decide,
   (gate_single_slot sampleEnv (mqttDemoContext sampleEnv) [] 3).1 (by decide)⟩

theorem wifi_in_ble_or_wifi (w b : Nat) : hasType (w &&& (b ||| w)) w := by
  unfold hasType
  apply Nat.eq_of_testBit_eq
  intro i
  simp only [Nat.testBit_and, Nat.testBit_or]
  cases w.testBit i <;> cases b.testBit i <;> rfl

/-- C11. Wait path. When the semaphore is created, the subscription succeeds and the
first query of the connected networks, restricted to the acceptable types, is `NONE`:
the task run alone stays blocked in the wait; under every interleaving with the
callback, once the task is past the wait it has completed exactly one wait and
`availableNetworkTypes` is the query made after the wait, restricted to the acceptable
types, whatever events were delivered. With `BLE | WIFI` acceptable, `connectedNetwork`
initially `NONE` and Wi-Fi connected at the second query, an enabled event of any type
releases the task, which commits `WIFI` with `awsIotMqttMode = true`; a BLE enabled
event delivered after the commit leaves `connectedNetwork` at `WIFI`. -/
theorem wait_path (env : Env) (ctx : _demoContext_t)
    (hc : env.semaphoreCreated = true) (hsub : env.subscribed = true)
    (hfirst : env.connectedAtStart &&& ctx.networkTypes = env.AWSIOT_NETWORK_TYPE_NONE) :
    (_runDemoTask env 9 (initialState env ctx)).pc = Pc.waiting ∧
    (∀ ms : List Move, 3 ≤ (exec env (initialState env ctx) ms).pc.rank →
      (exec env (initialState env ctx) ms).trace.filter Action.isSemaphoreWait
        = [Action.semaphoreWait] ∧
      (exec env (initialState env ctx) ms).availableNetworkTypes
        = env.connectedAfterWait &&& ctx.networkTypes) ∧
    (ctx.networkTypes = env.AWSIOT_NETWORK_TYPE_BLE ||| env.AWSIOT_NETWORK_TYPE_WIFI →
      ctx.connectedNetwork = env.AWSIOT_NETWORK_TYPE_NONE →
      env.connectedAfterWait = env.AWSIOT_NETWORK_TYPE_WIFI →
      ∀ networkType : Nat,
        (exec env (initialState env ctx) (releasedBy networkType)).pc = Pc.run ∧
        (exec env (initialState env ctx) (releasedBy networkType)).ret = true ∧
        (exec env (initialState env ctx) (releasedBy networkType)).ctx.connectedNetwork
          = env.AWSIOT_NETWORK_TYPE_WIFI ∧
        (exec env (initialState env ctx) (releasedBy networkType)).awsIotMqttMode = true ∧
        (exec env (initialState env ctx) (releasedBy networkType)).trace.filter Action.isCommit
          = [Action.commit env.AWSIOT_NETWORK_TYPE_WIFI] ∧
        (_onNetworkStateChangeCallback env env.AWSIOT_NETWORK_TYPE_BLE
          AwsIotNetworkState_t.eNetworkStateEnabled
          (exec env (initialState env ctx) (releasedBy networkType))).ctx.connectedNetwork
          = env.AWSIOT_NETWORK_TYPE_WIFI) := by
  refine ⟨?_, ?_, ?_⟩
  · obtain ⟨NONE, WIFI, BLE, INIT, name, port, alpn, created, subscribed, handle, c1, c2, gi,
      status⟩ := env
    obtain ⟨types, cn, demoFn, onC, onD, sem⟩ := ctx
    simp only at hc hsub hfirst
    subst hc hsub
    simp [_runDemoTask, flowStep, initialState, createBlock, subscribeBlock, queryBlock,
      _blockForAvailableNetwork, IotSemaphore_Wait, hfirst]
  · intro ms hrank
    obtain ⟨_, _, _, _, _, hat⟩ := flowInv_exec env ctx ms
    obtain ⟨_, h2, _⟩ := semInv_exec env ctx ms
    generalize exec env (initialState env ctx) ms = s at hat h2 hrank ⊢
    have hfirst' : firstAvailable env ctx = env.AWSIOT_NETWORK_TYPE_NONE := hfirst
    refine ⟨by rw [h2 hrank, if_pos ⟨hc, hsub, hfirst'⟩], ?_⟩
    have hq : Queried env ctx s := by
      cases hpc : s.pc <;> rw [hpc] at hat hrank <;> simp only [FlowAt, Pc.rank] at hat hrank
      · omega
      · omega
      · omega
      · omega
      · exact hat.2.1 (hat.1.mpr ⟨hc, hsub⟩)
      all_goals exact hat.1 hc hsub
    rcases hq with ⟨h, _⟩ | ⟨_, h⟩
    · exact absurd hfirst' h
    · exact h
  · intro hty hcn hconn networkType
    have hbit := wifi_in_ble_or_wifi env.AWSIOT_NETWORK_TYPE_WIFI env.AWSIOT_NETWORK_TYPE_BLE
    obtain ⟨NONE, WIFI, BLE, INIT, name, port, alpn, created, subscribed, handle, c1, c2, gi,
      status⟩ := env
    obtain ⟨types, cn, demoFn, onC, onD, sem⟩ := ctx
    simp only at hc hsub hfirst hty hcn hconn hbit
    subst hc hsub hty hcn hconn
    unfold hasType at hbit
    cases onC <;>
      simp [exec, releasedBy, step, flowStep, initialState, createBlock, subscribeBlock,
        queryBlock, _blockForAvailableNetwork, IotSemaphore_Wait, IotSemaphore_Post,
        _onNetworkStateChangeCallback, resolveBlock, hfirst, hbit, List.filter_append,
        Action.isCommit] <;>
      split_ifs <;> simp

/-- C11, witness: scenario B, released by a Wi-Fi enabled event. -/
theorem wait_path_witness :
    wifiAfterWaitEnv.semaphoreCreated = true ∧ wifiAfterWaitEnv.subscribed = true ∧
    wifiAfterWaitEnv.connectedAtStart &&& (mqttBleEchoDemoContext wifiAfterWaitEnv).networkTypes
      = wifiAfterWaitEnv.AWSIOT_NETWORK_TYPE_NONE ∧
    (exec wifiAfterWaitEnv
      (initialState wifiAfterWaitEnv (mqttBleEchoDemoContext wifiAfterWaitEnv))
      (releasedBy 1)).ctx.connectedNetwork = 1 ∧
    (exec wifiAfterWaitEnv
      (initialState wifiAfterWaitEnv (mqttBleEchoDemoContext wifiAfterWaitEnv))
      (releasedBy 1)).awsIotMqttMode = true :=
  ⟨by decide, by decide, by decide,
   ((wait_path wifiAfterWaitEnv (mqttBleEchoDemoContext wifiAfterWaitEnv) (by decide)
      (by decide) (by decide)).2.2 (by decide) (by decide) (by decide) 1).2.2.1,
   ((wait_path wifiAfterWaitEnv (mqttBleEchoDemoContext wifiAfterWaitEnv) (by decide)
      (by decide) (by decide)).2.2 (by decide) (by decide) (by decide) 1).2.2.2.1⟩

/-! The subscription. -/

theorem subAt_congr (env : Env) (ctx0 : _demoContext_t) (s s' : State) (pc : Pc)
    (h1 : s'.subscription = s.subscription)
    (h2 : s'.trace.filter Action.isSubscribeForStateChange
      = s.trace.filter Action.isSubscribeForStateChange)
    (h3 : s'.trace.filter Action.isRemoveSubscription
      = s.trace.filter Action.isRemoveSubscription)
    (h : SubAt env ctx0 s pc) : SubAt env ctx0 s' pc := by
  cases pc <;> simp only [SubAt, h1, h2, h3] at h ⊢ <;> exact h

theorem subInv_initialState (env : Env) (ctx0 : _demoContext_t) :
    SubInv env ctx0 (initialState env ctx0) := by
  simp [SubInv, SubAt, initialState]

theorem subInv_callback (env : Env) (ctx0 : _demoContext_t) (s : State)
    (networkType : Nat) (state : AwsIotNetworkState_t) (h : SubInv env ctx0 s) :
    SubInv env ctx0 (_onNetworkStateChangeCallback env networkType state s) := by
  obtain ⟨hpc, _, _, _, _, _, hsubs, _⟩ := callback_frame env s networkType state
  unfold SubInv
  rw [hpc]
  refine subAt_congr env ctx0 s _ s.pc hsubs ?_ ?_ h
  · unfold _onNetworkStateChangeCallback
    dsimp only
    split_ifs <;> simp [List.filter_append, Action.isSubscribeForStateChange]
  · unfold _onNetworkStateChangeCallback
    dsimp only
    split_ifs <;> simp [List.filter_append, Action.isRemoveSubscription]

theorem subInv_flowStep (env : Env) (ctx0 : _demoContext_t) (s s' : State)
    (hf : FlowInv env ctx0 s) (h : SubInv env ctx0 s) (hs : flowStep env s = some s') :
    SubInv env ctx0 s' := by
  obtain ⟨hty, _, _, _, _, hat⟩ := hf
  unfold SubInv at h
  unfold flowStep at hs
  split at hs
  · next hpc =>
    cases hs
    rw [hpc] at h
    simp only [SubAt] at h
    unfold createBlock
    simp [SubInv, SubAt, List.filter_append, Action.isSubscribeForStateChange,
      Action.isRemoveSubscription, h]
  · next hpc =>
    cases hs
    rw [hpc] at h hat
    simp only [SubAt] at h
    simp only [FlowAt] at hat
    unfold subscribeBlock
    dsimp only
    split_ifs with hret hsub
    · have hc := hat.1.mp hret
      simp [SubInv, SubAt, subscriptionAfter, subscribesAfter, List.filter_append,
        Action.isSubscribeForStateChange, Action.isRemoveSubscription, h, hc, hty]
    · have hc := hat.1.mp hret
      simp [SubInv, SubAt, subscriptionAfter, subscribesAfter, List.filter_append,
        Action.isSubscribeForStateChange, Action.isRemoveSubscription, h, hc, hty]
    · have hc : ¬ env.semaphoreCreated = true := fun hc => hret (hat.1.mpr hc)
      simp [SubInv, SubAt, subscriptionAfter, subscribesAfter, h, hc]
  · next hpc =>
    cases hs
    rw [hpc] at h
    simp only [SubAt] at h
    unfold queryBlock
    dsimp only
    split_ifs <;>
      simp [SubInv, SubAt, List.filter_append, Action.isSubscribeForStateChange,
        Action.isRemoveSubscription, h]
  · next hpc =>
    rw [hpc] at h
    simp only [SubAt] at h
    unfold _blockForAvailableNetwork at hs
    dsimp only at hs
    split at hs
    · exact absurd hs (by simp)
    · simp only [Option.some.injEq] at hs
      subst hs
      simp [SubInv, SubAt, List.filter_append, Action.isSubscribeForStateChange,
        Action.isRemoveSubscription, h]
  · next hpc =>
    cases hs
    rw [hpc] at h
    simp only [SubAt] at h
    unfold resolveBlock
    split_ifs <;>
      simp [SubInv, SubAt, List.filter_append, Action.isSubscribeForStateChange,
        Action.isRemoveSubscription, h]
  · next hpc =>
    cases hs
    rw [hpc] at h
    simp only [SubAt] at h
    unfold runBlock
    split_ifs <;>
      simp [SubInv, SubAt, List.filter_append, Action.isSubscribeForStateChange,
        Action.isRemoveSubscription, h]
  · next hpc =>
    cases hs
    rw [hpc] at h
    simp only [SubAt] at h
    unfold unsubscribeBlock
    split_ifs with hne
    · rw [h.1] at hne
      simp [SubInv, SubAt, List.filter_append, Action.isSubscribeForStateChange,
        Action.isRemoveSubscription, h, hne]
    · rw [h.1] at hne
      simp [SubInv, SubAt, h, hne]
  · next hpc =>
    cases hs
    rw [hpc] at h
    simp only [SubAt] at h
    unfold destroyBlock
    split_ifs <;>
      simp [SubInv, SubAt, List.filter_append, Action.isSubscribeForStateChange,
        Action.isRemoveSubscription, h]
  · next hpc =>
    cases hs
    rw [hpc] at h
    simp only [SubAt] at h
    unfold deleteBlock
    simp [SubInv, SubAt, List.filter_append, Action.isSubscribeForStateChange,
      Action.isRemoveSubscription, h]
  · exact absurd hs (by simp)

theorem subInv_step (env : Env) (ctx0 : _demoContext_t) (s : State) (m : Move)
    (hf : FlowInv env ctx0 s) (h : SubInv env ctx0 s) : SubInv env ctx0 (step env s m) := by
  cases m with
  | flow =>
    unfold step
    cases hs : flowStep env s with
    | none => simpa using h
    | some s' => simpa using subInv_flowStep env ctx0 s s' hf h hs
  | event networkType state => exact subInv_callback env ctx0 s networkType state h

theorem subInv_exec_from (env : Env) (ctx0 : _demoContext_t) (ms : List Move) :
    ∀ s : State, FlowInv env ctx0 s → SubInv env ctx0 s → SubInv env ctx0 (exec env s ms) := by
  induction ms with
  | nil => intro s _ h; exact h
  | cons m ms ih =>
    intro s hf h
    exact ih (step env s m) (flowInv_step env ctx0 s m hf) (subInv_step env ctx0 s m hf h)

/-- Every state the task and the callback can reach from the start of `_runDemoTask`
satisfies `SubInv`. -/
theorem subInv_exec (env : Env) (ctx0 : _demoContext_t) (ms : List Move) :
    SubInv env ctx0 (exec env (initialState env ctx0) ms) :=
  subInv_exec_from env ctx0 ms _ (flowInv_initialState env ctx0) (subInv_initialState env ctx0)

/-- Past the wait every block of `_runDemoTask` can run and leads to the next one. -/
theorem flowStep_progress_late (env : Env) (s : State) (hr : 3 ≤ s.pc.rank)
    (hpc : s.pc ≠ Pc.terminated) :
    ∃ s' : State, flowStep env s = some s' ∧ s'.pc.rank = s.pc.rank + 1 := by
  unfold flowStep
  split
  · next h1 => rw [h1] at hr; simp [Pc.rank] at hr
  · next h1 => rw [h1] at hr; simp [Pc.rank] at hr
  · next h1 => rw [h1] at hr; simp [Pc.rank] at hr
  · next h1 => rw [h1] at hr; simp [Pc.rank] at hr
  · next h1 =>
    refine ⟨_, rfl, ?_⟩
    rw [h1]; unfold resolveBlock; split_ifs <;> rfl
  · next h1 =>
    refine ⟨_, rfl, ?_⟩
    rw [h1]; unfold runBlock; split_ifs <;> rfl
  · next h1 =>
    refine ⟨_, rfl, ?_⟩
    rw [h1]; unfold unsubscribeBlock; split_ifs <;> rfl
  · next h1 =>
    refine ⟨_, rfl, ?_⟩
    rw [h1]; unfold destroyBlock; split_ifs <;> rfl
  · next h1 => exact ⟨_, rfl, by rw [h1]; rfl⟩
  · next h1 => exact absurd h1 hpc

/-- Unless the semaphore was created, the subscription succeeded and the first query
found nothing, every block of `_runDemoTask` can run and leads to the next one: the
task does not enter the wait. -/
theorem flowStep_progress_unblocked (env : Env) (ctx0 : _demoContext_t) (s : State)
    (h : FlowInv env ctx0 s)
    (hun : ¬ (env.semaphoreCreated = true ∧ env.subscribed = true ∧
      firstAvailable env ctx0 = env.AWSIOT_NETWORK_TYPE_NONE))
    (hpc : s.pc ≠ Pc.terminated) :
    ∃ s' : State, flowStep env s = some s' ∧ s'.pc.rank = s.pc.rank + 1 := by
  by_cases hr : 3 ≤ s.pc.rank
  · exact flowStep_progress_late env s hr hpc
  · obtain ⟨hty, _, _, _, _, hat⟩ := h
    unfold flowStep
    split
    · next h1 => exact ⟨_, rfl, by rw [h1]; rfl⟩
    · next h1 =>
      refine ⟨_, rfl, ?_⟩
      rw [h1]; unfold subscribeBlock; dsimp only; split_ifs <;> rfl
    · next h1 =>
      refine ⟨_, rfl, ?_⟩
      rw [h1] at hat ⊢
      simp only [FlowAt] at hat
      unfold queryBlock
      dsimp only
      rw [hty]
      split_ifs with h2 h3
      · exact absurd ⟨(hat.1.mp h2).1, (hat.1.mp h2).2, h3⟩ hun
      · rfl
      · rfl
    · next h1 =>
      rw [h1] at hat
      simp only [FlowAt] at hat
      exact absurd ⟨hat.2.1, hat.2.2.1, hat.2.2.2.1⟩ hun
    all_goals
      next h1 => rw [h1] at hr; simp [Pc.rank] at hr

/-- The task run alone keeps the invariants of the flow and of the subscription. -/
theorem runDemoTask_inv (env : Env) (ctx0 : _demoContext_t) (fuel : Nat) :
    ∀ s : State, FlowInv env ctx0 s → SubInv env ctx0 s →
      FlowInv env ctx0 (_runDemoTask env fuel s) ∧ SubInv env ctx0 (_runDemoTask env fuel s) := by
  induction fuel with
  | zero => intro s hf hs; exact ⟨hf, hs⟩
  | succ n ih =>
    intro s hf hs
    unfold _runDemoTask
    cases hstep : flowStep env s with
    | none => exact ⟨hf, hs⟩
    | some s1 =>
      exact ih s1 (flowInv_flowStep env ctx0 s s1 hf hstep)
        (subInv_flowStep env ctx0 s s1 hf hs hstep)

/-- Past the wait, `_runDemoTask` run alone reaches its end as soon as the fuel covers
the blocks that remain. -/
theorem runDemoTask_terminates_late (env : Env) (fuel : Nat) :
    ∀ s : State, 3 ≤ s.pc.rank → 8 ≤ s.pc.rank + fuel →
      (_runDemoTask env fuel s).pc = Pc.terminated := by
  induction fuel with
  | zero =>
    intro s _ hr
    have h8 : 8 ≤ s.pc.rank := by omega
    unfold _runDemoTask
    revert h8
    cases s.pc <;> simp [Pc.rank]
  | succ n ih =>
    intro s h3 hr
    by_cases hpc : s.pc = Pc.terminated
    · unfold _runDemoTask
      have : flowStep env s = none := by unfold flowStep; rw [hpc]
      rw [this]
      exact hpc
    · obtain ⟨s', hs, hrank⟩ := flowStep_progress_late env s h3 hpc
      unfold _runDemoTask
      rw [hs]
      exact ih s' (by omega) (by omega)

/-- Unless the task has to wait, `_runDemoTask` run alone reaches its end as soon as the
fuel covers the blocks that remain. -/
theorem runDemoTask_terminates_unblocked (env : Env) (ctx0 : _demoContext_t) (fuel : Nat)
    (hun : ¬ (env.semaphoreCreated = true ∧ env.subscribed = true ∧
      firstAvailable env ctx0 = env.AWSIOT_NETWORK_TYPE_NONE)) :
    ∀ s : State, FlowInv env ctx0 s → 8 ≤ s.pc.rank + fuel →
      (_runDemoTask env fuel s).pc = Pc.terminated := by
  induction fuel with
  | zero =>
    intro s _ hr
    have h8 : 8 ≤ s.pc.rank := by omega
    unfold _runDemoTask
    revert h8
    cases s.pc <;> simp [Pc.rank]
  | succ n ih =>
    intro s h hr
    by_cases hpc : s.pc = Pc.terminated
    · unfold _runDemoTask
      have : flowStep env s = none := by unfold flowStep; rw [hpc]
      rw [this]
      exact hpc
    · obtain ⟨s', hs, hrank⟩ := flowStep_progress_unblocked env ctx0 s h hun hpc
      unfold _runDemoTask
      rw [hs]
      exact ih s' (flowInv_flowStep env ctx0 s s' h hs) (by omega)

/-- Once the block of lines 265-269 is over, the removals made are `removalsAfter`. -/
theorem subInv_removals (env : Env) (ctx0 : _demoContext_t) (s : State)
    (h : SubInv env ctx0 s) (hr : 6 ≤ s.pc.rank) :
    s.trace.filter Action.isRemoveSubscription = removalsAfter env := by
  unfold SubInv at h
  unfold removalsAfter
  cases hpc : s.pc <;> rw [hpc] at h hr <;> simp only [SubAt, Pc.rank] at h hr <;>
    first
    | omega
    | exact h.2.2

/-- Before the block of lines 265-269 is over, no removal has been made. -/
theorem subInv_no_removal (env : Env) (ctx0 : _demoContext_t) (s : State)
    (h : SubInv env ctx0 s) (hr : s.pc.rank ≤ 5) :
    s.trace.filter Action.isRemoveSubscription = [] := by
  unfold SubInv at h
  cases hpc : s.pc <;> rw [hpc] at h hr <;> simp only [SubAt, Pc.rank] at h hr <;>
    first
    | omega
    | exact h.2.2

/-- When the task has to wait and `connectedNetwork` is `NONE`, an enabled event of any
type releases it: after `releasedBy` the task is about to run the block of lines
250-263. -/
theorem releasedBy_pc (env : Env) (ctx : _demoContext_t) (networkType : Nat)
    (hc : env.semaphoreCreated = true) (hsub : env.subscribed = true)
    (hfirst : firstAvailable env ctx = env.AWSIOT_NETWORK_TYPE_NONE)
    (hcn : ctx.connectedNetwork = env.AWSIOT_NETWORK_TYPE_NONE) :
    (exec env (initialState env ctx) (releasedBy networkType)).pc = Pc.run := by
  obtain ⟨NONE, WIFI, BLE, INIT, name, port, alpn, created, subscribed, handle, c1, c2, gi,
    status⟩ := env
  obtain ⟨types, cn, demoFn, onC, onD, sem⟩ := ctx
  simp only [firstAvailable] at hc hsub hfirst hcn
  subst hc hsub hcn
  cases onC <;>
    simp [exec, releasedBy, step, flowStep, initialState, createBlock, subscribeBlock,
      queryBlock, _blockForAvailableNetwork, IotSemaphore_Wait, IotSemaphore_Post,
      _onNetworkStateChangeCallback, resolveBlock, hfirst] <;>
    split_ifs <;> rfl

/-- C15, as stated, fails: the echo demo has committed Wi-Fi, a Wi-Fi disabled event is
delivered before line 253 is reached, and the demo entry point is then called, with the
Wi-Fi arguments, while `connectedNetwork` is `NONE` and not the chosen type. -/
theorem demo_arguments_counterexample :
    wifiLostBeforeDemo.pc = Pc.run ∧ wifiLostBeforeDemo.ret = true ∧
    wifiLostBeforeDemo.trace.filter Action.isCommit = [Action.commit 1] ∧
    wifiLostBeforeDemo.ctx.connectedNetwork = 0 ∧
    flowStep sampleEnv wifiLostBeforeDemo = some (runBlock sampleEnv wifiLostBeforeDemo) ∧
    (runBlock sampleEnv wifiLostBeforeDemo).trace =
      wifiLostBeforeDemo.trace ++
        [Action.demoFn true "thing" 8883 none (some 101), Action.logInfo] ∧
    (runBlock sampleEnv wifiLostBeforeDemo).ctx.connectedNetwork = 0 := by
  decide

/-- C15, amended. In every run of `_runDemoTask` from a context whose `connectedNetwork`
is `NONE`, interleaved in any way with the callback, in which the block of lines 217-248
chose a network: when the task is about to call the demo entry point (`ret` true before
line 250), exactly one type `chosen`, `WIFI` or `BLE`, has been committed,
`connectedNetwork` is `chosen` or has been reset to `NONE` by the callback, and the call
is made once with the flag of the chosen type, the thing name, the port and the
credentials of the task (ALPN as the Wi-Fi branch left it) and the interface the manager
returned for `chosen`; the call leaves the context as it is. -/
theorem demo_arguments (env : Env) (ctx : _demoContext_t) (ms : List Move)
    (h0 : ctx.connectedNetwork = env.AWSIOT_NETWORK_TYPE_NONE)
    (hpc : (exec env (initialState env ctx) ms).pc = Pc.run)
    (hret : (exec env (initialState env ctx) ms).ret = true) :
    ∃ (chosen : Nat) (awsIotMqttMode : Bool) (pAlpnProtos : Option Nat),
      ((chosen = env.AWSIOT_NETWORK_TYPE_WIFI ∧ awsIotMqttMode = true ∧
          pAlpnProtos = (if env.port ≠ 443 then none else env.pAlpnProtos)) ∨
        (chosen = env.AWSIOT_NETWORK_TYPE_BLE ∧ awsIotMqttMode = false ∧
          pAlpnProtos = env.pAlpnProtos)) ∧
      (exec env (initialState env ctx) ms).trace.filter Action.isCommit
        = [Action.commit chosen] ∧
      ((exec env (initialState env ctx) ms).ctx.connectedNetwork = chosen ∨
        (exec env (initialState env ctx) ms).ctx.connectedNetwork
          = env.AWSIOT_NETWORK_TYPE_NONE) ∧
      flowStep env (exec env (initialState env ctx) ms)
        = some (runBlock env (exec env (initialState env ctx) ms)) ∧
      (runBlock env (exec env (initialState env ctx) ms)).trace =
        (exec env (initialState env ctx) ms).trace ++
          [Action.demoFn awsIotMqttMode env.clientcredentialIOT_THING_NAME env.port
             pAlpnProtos (some (env.getNetworkInterface chosen)),
           Action.logInfo] ∧
      (runBlock env (exec env (initialState env ctx) ms)).ctx
        = (exec env (initialState env ctx) ms).ctx := by
  have hf := flowInv_exec env ctx ms
  have hc := ctxInv_exec env ctx ms h0
  generalize exec env (initialState env ctx) ms = s at hf hc hpc hret ⊢
  obtain ⟨_, _, _, _, _, hat⟩ := hf
  obtain ⟨_, hcn⟩ := hc
  rw [hpc] at hat
  simp only [FlowAt] at hat
  obtain ⟨_, _, hch⟩ := hat.2.1 hret
  have hflow : flowStep env s = some (runBlock env s) := by
    unfold flowStep
    rw [hpc]
  have htr : (runBlock env s).trace = s.trace ++
      [Action.demoFn s.awsIotMqttMode env.clientcredentialIOT_THING_NAME env.port
         s.pAlpnProtos s.pNetworkInterface, Action.logInfo] := by
    unfold runBlock
    rw [if_pos hret]
  have hctx : (runBlock env s).ctx = s.ctx := by
    unfold runBlock
    rw [if_pos hret]
  rcases hch with ⟨_, hcm, hm, hi, hal⟩ | ⟨_, _, hcm, hm, hi, hal⟩
  · refine ⟨env.AWSIOT_NETWORK_TYPE_WIFI, true, _, Or.inl ⟨rfl, rfl, rfl⟩, hcm, ?_, hflow, ?_,
      hctx⟩
    · rcases hcn with h | ⟨h, _⟩
      · exact Or.inr h
      · rw [hcm] at h
        simp only [List.cons.injEq, Action.commit.injEq, and_true] at h
        exact Or.inl h.symm
    · rw [htr, hm, hi, hal]
  · refine ⟨env.AWSIOT_NETWORK_TYPE_BLE, false, _, Or.inr ⟨rfl, rfl, rfl⟩, hcm, ?_, hflow, ?_,
      hctx⟩
    · rcases hcn with h | ⟨h, _⟩
      · exact Or.inr h
      · rw [hcm] at h
        simp only [List.cons.injEq, Action.commit.injEq, and_true] at h
        exact Or.inl h.symm
    · rw [htr, hm, hi, hal]

/-- C15, amended, witness: the echo demo about to call the demo entry point with Wi-Fi
committed. -/
theorem demo_arguments_witness :
    (mqttBleEchoDemoContext sampleEnv).connectedNetwork = sampleEnv.AWSIOT_NETWORK_TYPE_NONE ∧
    wifiCommittedState.pc = Pc.run ∧ wifiCommittedState.ret = true ∧
    wifiCommittedState.ctx.connectedNetwork = 1 ∧
    (∃ (chosen : Nat) (awsIotMqttMode : Bool) (pAlpnProtos : Option Nat),
      ((chosen = sampleEnv.AWSIOT_NETWORK_TYPE_WIFI ∧ awsIotMqttMode = true ∧
          pAlpnProtos = (if sampleEnv.port ≠ 443 then none else sampleEnv.pAlpnProtos)) ∨
        (chosen = sampleEnv.AWSIOT_NETWORK_TYPE_BLE ∧ awsIotMqttMode = false ∧
          pAlpnProtos = sampleEnv.pAlpnProtos)) ∧
      wifiCommittedState.trace.filter Action.isCommit = [Action.commit chosen] ∧
      (wifiCommittedState.ctx.connectedNetwork = chosen ∨
        wifiCommittedState.ctx.connectedNetwork = sampleEnv.AWSIOT_NETWORK_TYPE_NONE) ∧
      flowStep sampleEnv wifiCommittedState = some (runBlock sampleEnv wifiCommittedState) ∧
      (runBlock sampleEnv wifiCommittedState).trace =
        wifiCommittedState.trace ++
          [Action.demoFn awsIotMqttMode sampleEnv.clientcredentialIOT_THING_NAME sampleEnv.port
             pAlpnProtos (some (sampleEnv.getNetworkInterface chosen)),
           Action.logInfo] ∧
      (runBlock sampleEnv wifiCommittedState).ctx = wifiCommittedState.ctx) :=
  ⟨by decide, by decide, by decide, by decide,
   demo_arguments sampleEnv (mqttBleEchoDemoContext sampleEnv)
     [Move.flow, Move.flow, Move.flow, Move.flow] (by decide) (by decide) (by decide)⟩

/-- C19. For the contexts of `vStartMQTTDemo` and `vStartShadowDemo`, which accept
`WIFI` only and register no hook, whatever the manager reports as connected and
whatever events are delivered (the BLE bits not all being Wi-Fi bits): a call of the
demo entry point has `awsIotMqttMode = true` and the interface the manager returns for
`WIFI`, and the one committed type is `WIFI`; so the call never has
`awsIotMqttMode = false`, nor the BLE interface when the manager gives the two types
different interfaces. The context of `vStartMQTTBLEEchoDemo`, which accepts `BLE` and
`WIFI`, does run with `awsIotMqttMode = false` when BLE alone is connected. -/
theorem wifi_only_contexts (env : Env) (ctx : _demoContext_t) (ms : List Move)
    (hbits : ¬ hasType env.AWSIOT_NETWORK_TYPE_WIFI env.AWSIOT_NETWORK_TYPE_BLE)
    (hctx : ctx = mqttDemoContext env ∨ ctx = shadowDemoContext env)
    (awsIotMqttMode : Bool) (pIdentifier : String) (port : Nat)
    (pAlpnProtos pNetworkInterface : Option Nat)
    (hdemo : Action.demoFn awsIotMqttMode pIdentifier port pAlpnProtos pNetworkInterface ∈
      (exec env (initialState env ctx) ms).trace) :
    awsIotMqttMode = true ∧
    pNetworkInterface = some (env.getNetworkInterface env.AWSIOT_NETWORK_TYPE_WIFI) ∧
    (env.getNetworkInterface env.AWSIOT_NETWORK_TYPE_WIFI
        ≠ env.getNetworkInterface env.AWSIOT_NETWORK_TYPE_BLE →
      pNetworkInterface ≠ some (env.getNetworkInterface env.AWSIOT_NETWORK_TYPE_BLE)) ∧
    (exec env (initialState env ctx) ms).trace.filter Action.isCommit
      = [Action.commit env.AWSIOT_NETWORK_TYPE_WIFI] ∧
    ctx.onNetworkConnectedFn = none ∧ ctx.onNetworkDisconnectedFn = none ∧
    Action.demoFn false "thing" 8883 (some 7) (some 102) ∈
      (exec bleEnv (initialState bleEnv (mqttBleEchoDemoContext bleEnv)) taskAlone).trace := by
  have hty : ctx.networkTypes = env.AWSIOT_NETWORK_TYPE_WIFI := by
    rcases hctx with h | h <;> rw [h] <;> rfl
  have hhooks : ctx.onNetworkConnectedFn = none ∧ ctx.onNetworkDisconnectedFn = none := by
    rcases hctx with h | h <;> rw [h] <;> exact ⟨rfl, rfl⟩
  have hf := flowInv_exec env ctx ms
  obtain ⟨_, hc, hsub, hch, _, ha⟩ := demo_called env ctx _ hf _ hdemo rfl
  generalize exec env (initialState env ctx) ms = s at hf hch ha hdemo ⊢
  simp only [Action.demoFn.injEq] at ha
  obtain ⟨hmode, _, _, _, hiface⟩ := ha
  have hmem : Action.demoFn awsIotMqttMode pIdentifier port pAlpnProtos pNetworkInterface ∈
      s.trace.filter Action.isDemoFn := List.mem_filter.mpr ⟨hdemo, rfl⟩
  have nil : s.trace.filter Action.isDemoFn = [] → False := fun h0 => by
    rw [h0] at hmem
    exact absurd hmem (List.not_mem_nil _)
  have hq : Queried env ctx s := by
    obtain ⟨_, _, _, _, _, hat⟩ := hf
    cases hpc : s.pc <;> rw [hpc] at hat <;> simp only [FlowAt, Unresolved] at hat <;>
      first
      | exact (nil hat.2.2.1).elim
      | exact (nil hat.2.2.2.2.2.1).elim
      | exact (nil hat.2.2.2.1).elim
      | exact hat.1 hc hsub
  rcases hch with ⟨_, hcm, hm, hi, _⟩ | ⟨_, hb, _⟩
  · refine ⟨by rw [hmode, hm], by rw [hiface, hi], ?_, hcm, hhooks.1, hhooks.2, by decide⟩
    intro hne
    rw [hiface, hi]
    intro heq
    exact hne (Option.some.inj heq)
  · exfalso
    have := queried_hasType env ctx s _ hq hb
    rw [hty] at this
    exact hbits this

/-- C19, witness: the MQTT demo alone with Wi-Fi connected. -/
theorem wifi_only_contexts_witness :
    ¬ hasType sampleEnv.AWSIOT_NETWORK_TYPE_WIFI sampleEnv.AWSIOT_NETWORK_TYPE_BLE ∧
    Action.demoFn true "thing" 8883 none (some 101) ∈
      (exec sampleEnv (initialState sampleEnv (mqttDemoContext sampleEnv)) taskAlone).trace ∧
    some 101 = some (sampleEnv.getNetworkInterface sampleEnv.AWSIOT_NETWORK_TYPE_WIFI) :=
  ⟨by decide, by decide,
   (wifi_only_contexts sampleEnv (mqttDemoContext sampleEnv) taskAlone (by decide)
     (Or.inl rfl) true "thing" 8883 none (some 101) (by decide)).2.1⟩

end IotDemoAfr
